import Mathlib

/-!
Verification development for the NOAA climate connector.

The connector's three processors (global temperature anomalies, regional
climate trends, US precipitation) are shallowly embedded below.  Python
floats are modelled as exact rationals; to keep every definition executable
by kernel reduction we use a small normalised-rational type QR (numerator,
positive denominator, coprime — maintained by the smart constructor mkQR)
instead of Mathlib's Rat, whose arithmetic is irreducible.  JSON objects are
modelled by structures whose fields are present-or-absent via Option; a
year-keyed JSON data object is an association list in insertion order with
distinct keys.  Remote HTTP traffic is modelled by passing each processor an
oracle from request parameters to the Response the remote service returns,
and the state store and clock are passed in explicitly; each processor
returns its table (or the raised exception) together with the counts of
state-store reads, the list of state-store writes, and the number of remote
fetches it performed.
-/

namespace NoaaClimate

/-- Executable rational numbers: numerator over positive denominator, kept
normalised (coprime, positive denominator) by the smart constructor. -/
structure QR where
  num : Int
  den : Nat
deriving DecidableEq, Repr

/-- Normalised rational n / d; d = 0 yields 0 (never reached by the model). -/
def mkQR (n : Int) (d : Nat) : QR :=
  if d = 0 then ⟨0, 1⟩ else
    let g := n.natAbs.gcd d
    ⟨n.tdiv g, d / g⟩

def QR.add (a b : QR) : QR := mkQR (a.num * b.den + b.num * a.den) (a.den * b.den)

def QR.mul (a b : QR) : QR := mkQR (a.num * b.num) (a.den * b.den)

def QR.neg (a : QR) : QR := ⟨-a.num, a.den⟩

def QR.sub (a b : QR) : QR := a.add b.neg

def QR.inv (a : QR) : QR :=
  if a.num = 0 then ⟨0, 1⟩
  else if 0 < a.num then ⟨a.den, a.num.natAbs⟩
  else ⟨-(a.den : Int), a.num.natAbs⟩

def QR.div (a b : QR) : QR := a.mul b.inv

/-- Strict order on QR, as the Python float comparison. -/
def QR.blt (a b : QR) : Bool := a.num * b.den < b.num * a.den

def QR.abs (a : QR) : QR := if a.num < 0 then a.neg else a

/-- Floor of a rational (denominators are positive). -/
def QR.floor (a : QR) : Int := a.num.fdiv a.den

instance : Add QR := ⟨QR.add⟩
instance : Mul QR := ⟨QR.mul⟩
instance : Sub QR := ⟨QR.sub⟩
instance : Div QR := ⟨QR.div⟩
instance : Neg QR := ⟨QR.neg⟩
instance (n : Nat) : OfNat QR n := ⟨⟨n, 1⟩⟩

/-- Python round(x, nd): round half to even at nd decimal digits (floats are
modelled as exact rationals, so this is decimal banker's rounding). -/
def pyRound (nd : Nat) (q : QR) : QR :=
  let scaled := q * mkQR (10 ^ nd) 1
  let f := scaled.floor
  let r := scaled - mkQR f 1
  let n : Int :=
    if r.blt (mkQR 1 2) then f
    else if (mkQR 1 2).blt r then f + 1
    else if f % 2 = 0 then f else f + 1
  mkQR n (10 ^ nd)

/-- Python sum over a list of floats (starts from 0, folds left). -/
def listSum (l : List QR) : QR := l.foldl QR.add 0

/-- Python min over a nonempty list ([] never reached by the model). -/
def listMin : List QR → QR
  | [] => 0
  | a :: rest => rest.foldl (fun x y => if y.blt x then y else x) a

/-- Python max over a nonempty list ([] never reached by the model). -/
def listMax : List QR → QR
  | [] => 0
  | a :: rest => rest.foldl (fun x y => if x.blt y then y else x) a

/-- Decimal digits of a year string folded into a Nat. -/
def digitsToNat (cs : List Char) : Nat := cs.foldl (fun a c => a * 10 + (c.toNat - 48)) 0

/-- Python int(s) on a string: optional surrounding whitespace, an optional
sign, then one or more decimal digits; none models the raised ValueError.
(The underscore digit separators Python also accepts are not modelled; no
claim depends on them.) -/
def pyInt (s : String) : Option Int :=
  let cs := ((s.data.dropWhile Char.isWhitespace).reverse.dropWhile Char.isWhitespace).reverse
  match cs with
  | [] => none
  | c :: rest =>
    let sd : Int × List Char :=
      if c = '-' then (-1, rest) else if c = '+' then (1, rest) else (1, c :: rest)
    if sd.2 ≠ [] ∧ sd.2.all Char.isDigit then some (sd.1 * digitsToNat sd.2) else none

/-- Lexicographic comparison of strings by code point, as Python compares
the year-string keys that sorted() orders. -/
def strLt (a b : String) : Bool := strLtAux a.data b.data
where
  strLtAux : List Char → List Char → Bool
  | [], [] => false
  | [], _ :: _ => true
  | _ :: _, [] => false
  | c :: cs, d :: ds => if c < d then true else if d < c then false else strLtAux cs ds

/-- One value of the year-keyed JSON data object: an object with optional
fields value and anomaly. -/
structure Entry where
  value : Option QR := none
  anomaly : Option QR := none
deriving DecidableEq, Repr

/-- A year-keyed JSON data object, in insertion order with distinct keys. -/
abbrev Series := List (String × Entry)

/-- Insert a keyed pair into a key-sorted list, before the first key that is
not below it (stable, matching Python sorted over the dict keys). -/
def orderedInsertKey {α : Type} (p : String × α) : List (String × α) → List (String × α)
  | [] => [p]
  | q :: qs => if strLt q.1 p.1 then q :: orderedInsertKey p qs else p :: q :: qs

/-- Sort an association list by its string keys (Python years = sorted(d.keys())
followed by indexing; with distinct keys this is the same as a stable sort of
the pairs). -/
def sortPairs {α : Type} (l : List (String × α)) : List (String × α) :=
  l.foldr orderedInsertKey []

/-- The description object of a payload. -/
structure Description where
  title : Option String := none
  base_period : Option String := none
deriving DecidableEq, Repr

/-- A parsed JSON response body. -/
structure Payload where
  description : Option Description := none
  data : Option Series := none
deriving DecidableEq, Repr

/-- An HTTP response: status code and parsed JSON body. -/
structure Response where
  status : Nat
  body : Payload

/-- Shared fetch pattern: 404 is the no-data signal (None); any status of
400 or above otherwise raises (response.raise_for_status()); success yields
the parsed body. -/
def fetchOutcome (r : Response) : Except Unit (Option Payload) :=
  if r.status = 404 then .ok none
  else if 400 ≤ r.status then .error ()
  else .ok (some r.body)

/-- The persisted run state of one dataset: load_state's mapping with its
two keys, each possibly absent. -/
structure RunState where
  last_update : Option String := none
  records_processed : Option Nat := none
deriving DecidableEq, Repr

/-- The pyarrow types appearing in the three schemas. -/
inductive FieldType
  | int32
  | float64
  | string
  | timestampS
deriving DecidableEq, Repr

/-- One pa.field of a schema. -/
structure PaField where
  name : String
  dtype : FieldType
  nullable : Bool
deriving DecidableEq, Repr

/-- A pyarrow table: its schema and its rows. -/
structure PaTable (α : Type) where
  schema : List PaField
  rows : List α
deriving DecidableEq

/-- Outcome of one processor invocation: the returned table or the raised
exception, plus the externally visible effects (state-store reads and writes,
remote fetches performed). -/
structure ProcOutput (α : Type) where
  result : Except Unit (PaTable α)
  storeReads : Nat
  storeWrites : List RunState
  fetchCount : Nat

def exceptDecEq {ε α : Type} [DecidableEq ε] [DecidableEq α] : DecidableEq (Except ε α) :=
  fun x y =>
    match x, y with
    | .ok a, .ok b =>
      if h : a = b then isTrue (by rw [h]) else isFalse (by simp [h])
    | .error a, .error b =>
      if h : a = b then isTrue (by rw [h]) else isFalse (by simp [h])
    | .ok _, .error _ => isFalse (by simp)
    | .error _, .ok _ => isFalse (by simp)

instance {ε α : Type} [DecidableEq ε] [DecidableEq α] : DecidableEq (Except ε α) :=
  exceptDecEq

/-- Rows of a step outcome, empty for an error. -/
def okRows {α : Type} : Except Unit (List α) → List α
  | .ok l => l
  | .error _ => []

/-- Whether a step outcome is a success. -/
def isOkE {α : Type} : Except Unit (List α) → Bool
  | .ok _ => true
  | .error _ => false

/-- The payload of a successful fetch outcome (none for an error, used only
to state facts about runs whose fetches did not raise). -/
def okRowsP : Except Unit (Option Payload) → Option Payload
  | .ok p => p
  | .error _ => none

/-- Sequential loop over work items: each step yields its fetch count and
either its records or a raised exception; an exception aborts the loop, as
an uncaught Python exception leaves the for loop. -/
def runSteps {ι α : Type} (step : ι → Nat × Except Unit (List α)) :
    List ι → Nat × Except Unit (List α)
  | [] => (0, .ok [])
  | c :: rest =>
    match step c with
    | (k, .error e) => (k, .error e)
    | (k, .ok recs) =>
      match runSteps step rest with
      | (k2, .error e) => (k + k2, .error e)
      | (k2, .ok recs2) => (k + k2, .ok (recs ++ recs2))

/-- The skip rule both enumerator loops apply: continental regions have no
ocean-only series. -/
def skipCombo (region_code surface_code : String) : Bool :=
  (["europe", "asia", "africa"].contains region_code) && surface_code == "ocean"

namespace GlobalTemp

/-- Regions list of assets/global_temperature_anomalies. -/
def regions : List (String × String) :=
  [("globe", "Global"), ("nhem", "Northern Hemisphere"), ("shem", "Southern Hemisphere"),
   ("europe", "Europe"), ("asia", "Asia"), ("africa", "Africa")]

/-- Surface types list of assets/global_temperature_anomalies. -/
def surface_types : List (String × String) :=
  [("land_ocean", "Land and Ocean"), ("land", "Land"), ("ocean", "Ocean")]

/-- Output schema of the global temperature anomaly dataset. -/
def schema : List PaField :=
  [⟨"year", .int32, false⟩, ⟨"region", .string, false⟩, ⟨"surface_type", .string, false⟩,
   ⟨"temperature_anomaly_celsius", .float64, false⟩, ⟨"base_period", .string, true⟩,
   ⟨"description", .string, true⟩, ⟨"data_source", .string, false⟩,
   ⟨"updated_at", .timestampS, false⟩]

/-- One output row of the global temperature anomaly dataset. -/
structure AnomalyRecord where
  year : Int
  region : String
  surface_type : String
  temperature_anomaly_celsius : QR
  base_period : String
  description : String
  data_source : String
  updated_at : Nat
deriving DecidableEq, Repr

/-- fetch_temperature_data: the URL is determined by region and surface type,
so the oracle already supplies this request's Response; 404 means no data,
other non-success statuses raise. -/
def fetch_temperature_data (resp : Response) : Except Unit (Option Payload) :=
  fetchOutcome resp

/-- The per-year loop of the processor: a year with a present anomaly yields
one record (int(year_str) raising on a non-integer key); a year without an
anomaly is skipped before any conversion. -/
def yearRecords (region_name surface_name base_period title : String) (now : Nat) :
    Series → Except Unit (List AnomalyRecord)
  | [] => .ok []
  | (year_str, values) :: rest =>
    match values.anomaly with
    | none => yearRecords region_name surface_name base_period title now rest
    | some anomaly =>
      match pyInt year_str with
      | none => .error ()
      | some y =>
        (yearRecords region_name surface_name base_period title now rest).map
          (fun rs =>
            { year := y, region := region_name, surface_type := surface_name,
              temperature_anomaly_celsius := anomaly, base_period := base_period,
              description := title, data_source := "NOAA Climate at a Glance",
              updated_at := now } :: rs)

/-- Body of the combo loop: skip continental-ocean combinations without a
fetch, otherwise fetch and shape this combination's records. -/
def processCombo (oracle : String → String → Response) (now : Nat)
    (combo : (String × String) × (String × String)) :
    Nat × Except Unit (List AnomalyRecord) :=
  let region_code := combo.1.1
  let region_name := combo.1.2
  let surface_code := combo.2.1
  let surface_name := combo.2.2
  if skipCombo region_code surface_code then (0, .ok [])
  else
    match fetch_temperature_data (oracle region_code surface_code) with
    | .error e => (1, .error e)
    | .ok none => (1, .ok [])
    | .ok (some data) =>
      let description := data.description.getD {}
      let title := description.title.getD ""
      let base_period := description.base_period.getD "1901-2000"
      let yearly_data := data.data.getD []
      (1, yearRecords region_name surface_name base_period title now yearly_data)

/-- The enumerated cross product of the two nested for loops. -/
def combos : List ((String × String) × (String × String)) :=
  regions.flatMap (fun r => surface_types.map (fun s => (r, s)))

/-- process_global_temperature_anomalies: read state, gate on today's date
string, run the combo loop, save state, return the table. -/
def process_global_temperature_anomalies (state : RunState) (today : String) (now : Nat)
    (oracle : String → String → Response) : ProcOutput AnomalyRecord :=
  if state.last_update = some today then
    { result := .ok ⟨schema, []⟩, storeReads := 1, storeWrites := [], fetchCount := 0 }
  else
    match runSteps (processCombo oracle now) combos with
    | (k, .error e) =>
      { result := .error e, storeReads := 1, storeWrites := [], fetchCount := k }
    | (k, .ok records) =>
      { result := .ok ⟨schema, records⟩, storeReads := 1,
        storeWrites := [{ last_update := some today, records_processed := some records.length }],
        fetchCount := k }

end GlobalTemp

namespace Regional

/-- Regions list of assets/regional_climate_data. -/
def regions : List (String × String) :=
  [("globe", "Global"), ("nhem", "Northern Hemisphere"), ("shem", "Southern Hemisphere"),
   ("europe", "Europe"), ("asia", "Asia"), ("africa", "Africa")]

/-- Surface types list of assets/regional_climate_data. -/
def surface_types : List (String × String) :=
  [("land_ocean", "Land and Ocean"), ("land", "Land"), ("ocean", "Ocean")]

/-- Lookback periods (years) of the trend analysis. -/
def periods : List Nat := [10, 30, 50]

/-- Output schema of the regional climate summary dataset. -/
def schema : List PaField :=
  [⟨"region", .string, false⟩, ⟨"surface_type", .string, false⟩,
   ⟨"period_start", .int32, false⟩, ⟨"period_end", .int32, false⟩,
   ⟨"avg_temperature_anomaly", .float64, false⟩, ⟨"min_temperature_anomaly", .float64, false⟩,
   ⟨"max_temperature_anomaly", .float64, false⟩, ⟨"latest_year", .int32, true⟩,
   ⟨"latest_anomaly", .float64, true⟩, ⟨"trend_direction", .string, false⟩,
   ⟨"trend_magnitude_celsius", .float64, false⟩, ⟨"base_period", .string, true⟩,
   ⟨"data_points", .int32, false⟩, ⟨"updated_at", .timestampS, false⟩]

/-- The dictionary returned by calculate_trend_statistics when the input
series is nonempty. -/
structure TrendStats where
  avg_anomaly : QR
  min_anomaly : QR
  max_anomaly : QR
  trend_direction : String
  trend_magnitude : QR
  latest_anomaly : Option QR
  latest_year : Option Int
deriving DecidableEq, Repr

/-- The chronologically key-sorted anomaly sequence of a series, with a
missing anomaly read as 0 (values.get, default 0). -/
def anomaliesOf (yearly_data : Series) : List QR :=
  (sortPairs yearly_data).map (fun p => p.2.anomaly.getD 0)

/-- calculate_trend_statistics: None for an empty series; otherwise mean,
min, max of the anomalies in key-sorted order, split-half trend direction
and magnitude, latest anomaly and latest year (the latter converted with
int(), which raises on a non-integer key). -/
def calculate_trend_statistics (yearly_data : Series) : Except Unit (Option TrendStats) :=
  if yearly_data.isEmpty then .ok none
  else
    let sorted := sortPairs yearly_data
    let years := sorted.map Prod.fst
    let anomalies := sorted.map (fun p => p.2.anomaly.getD 0)
    let n := anomalies.length
    let avg_anomaly := listSum anomalies / mkQR n 1
    let min_anomaly := listMin anomalies
    let max_anomaly := listMax anomalies
    let dirMag : String × QR :=
      if 2 ≤ n then
        let first_half_avg := listSum (anomalies.take (n / 2)) / mkQR (n / 2) 1
        let second_half_avg := listSum (anomalies.drop (n / 2)) / mkQR (n - n / 2) 1
        (if first_half_avg.blt second_half_avg then "warming" else "cooling",
         QR.abs (second_half_avg - first_half_avg))
      else ("stable", 0)
    let latest_anomaly : Option QR :=
      match anomalies.getLast? with
      | some a => some (pyRound 3 a)
      | none => none
    let latestYearE : Except Unit (Option Int) :=
      match years.getLast? with
      | none => .ok none
      | some y =>
        match pyInt y with
        | none => .error ()
        | some i => .ok (some i)
    latestYearE.map (fun latest_year =>
      some { avg_anomaly := pyRound 3 avg_anomaly, min_anomaly := pyRound 3 min_anomaly,
             max_anomaly := pyRound 3 max_anomaly, trend_direction := dirMag.1,
             trend_magnitude := pyRound 3 dirMag.2, latest_anomaly := latest_anomaly,
             latest_year := latest_year })

/-- One output row of the regional climate summary dataset. -/
structure RegionalRecord where
  region : String
  surface_type : String
  period_start : Int
  period_end : Int
  avg_temperature_anomaly : QR
  min_temperature_anomaly : QR
  max_temperature_anomaly : QR
  latest_year : Option Int
  latest_anomaly : Option QR
  trend_direction : String
  trend_magnitude_celsius : QR
  base_period : String
  data_points : Nat
  updated_at : Nat
deriving DecidableEq, Repr

/-- fetch_recent_climate_data: same shared fetch pattern; the oracle supplies
the Response for the (region, surface, lookback) request. -/
def fetch_recent_climate_data (resp : Response) : Except Unit (Option Payload) :=
  fetchOutcome resp

/-- Shape one fetched payload into at most one summary record (none when the
stats calculator returns None for an empty series). -/
def periodRecord (region_name surface_name : String) (current_year : Int) (period : Nat)
    (now : Nat) (data : Payload) : Except Unit (List RegionalRecord) :=
  let description := data.description.getD {}
  let base_period := description.base_period.getD "1901-2000"
  let yearly_data := data.data.getD []
  match calculate_trend_statistics yearly_data with
  | .error e => .error e
  | .ok none => .ok []
  | .ok (some stats) =>
    .ok [{ region := region_name, surface_type := surface_name,
           period_start := current_year - period, period_end := current_year,
           avg_temperature_anomaly := stats.avg_anomaly,
           min_temperature_anomaly := stats.min_anomaly,
           max_temperature_anomaly := stats.max_anomaly,
           latest_year := stats.latest_year, latest_anomaly := stats.latest_anomaly,
           trend_direction := stats.trend_direction,
           trend_magnitude_celsius := stats.trend_magnitude,
           base_period := base_period, data_points := yearly_data.length,
           updated_at := now }]

/-- Body of the inner period loop: one fetch per period. -/
def periodStep (oracle : String → String → Nat → Response)
    (region_code region_name surface_code surface_name : String) (current_year : Int)
    (now : Nat) (period : Nat) : Nat × Except Unit (List RegionalRecord) :=
  match fetch_recent_climate_data (oracle region_code surface_code period) with
  | .error e => (1, .error e)
  | .ok none => (1, .ok [])
  | .ok (some data) =>
    (1, periodRecord region_name surface_name current_year period now data)

/-- Body of the combo loop: skip continental-ocean combinations without any
fetch, otherwise run the period loop. -/
def processCombo (oracle : String → String → Nat → Response) (current_year : Int) (now : Nat)
    (combo : (String × String) × (String × String)) :
    Nat × Except Unit (List RegionalRecord) :=
  if skipCombo combo.1.1 combo.2.1 then (0, .ok [])
  else
    runSteps (periodStep oracle combo.1.1 combo.1.2 combo.2.1 combo.2.2 current_year now)
      periods

/-- The enumerated cross product of the two nested for loops. -/
def combos : List ((String × String) × (String × String)) :=
  regions.flatMap (fun r => surface_types.map (fun s => (r, s)))

/-- process_regional_climate_data: read state, gate on the current month
string, run the combo and period loops, save state, return the table. -/
def process_regional_climate_data (state : RunState) (current_month : String)
    (current_year : Int) (now : Nat) (oracle : String → String → Nat → Response) :
    ProcOutput RegionalRecord :=
  if state.last_update = some current_month then
    { result := .ok ⟨schema, []⟩, storeReads := 1, storeWrites := [], fetchCount := 0 }
  else
    match runSteps (processCombo oracle current_year now) combos with
    | (k, .error e) =>
      { result := .error e, storeReads := 1, storeWrites := [], fetchCount := k }
    | (k, .ok records) =>
      { result := .ok ⟨schema, records⟩, storeReads := 1,
        storeWrites := [{ last_update := some current_month,
                          records_processed := some records.length }],
        fetchCount := k }

end Regional

namespace Precip

/-- Output schema of the US precipitation dataset. -/
def schema : List PaField :=
  [⟨"year", .int32, false⟩, ⟨"region", .string, false⟩,
   ⟨"precipitation_inches", .float64, true⟩, ⟨"precipitation_anomaly_inches", .float64, true⟩,
   ⟨"temperature_fahrenheit", .float64, true⟩, ⟨"temperature_anomaly_fahrenheit", .float64, true⟩,
   ⟨"data_type", .string, false⟩, ⟨"base_period", .string, true⟩,
   ⟨"updated_at", .timestampS, false⟩]

/-- One output row of the US precipitation dataset. -/
structure PrecipRecord where
  year : Int
  region : String
  precipitation_inches : Option QR
  precipitation_anomaly_inches : Option QR
  temperature_fahrenheit : Option QR
  temperature_anomaly_fahrenheit : Option QR
  data_type : String
  base_period : Option String
  updated_at : Nat
deriving DecidableEq, Repr

/-- fetch_us_precipitation_data: shared fetch pattern for the fixed national
precipitation request. -/
def fetch_us_precipitation_data (resp : Response) : Except Unit (Option Payload) :=
  fetchOutcome resp

/-- fetch_us_temperature_data: shared fetch pattern for the fixed national
temperature request. -/
def fetch_us_temperature_data (resp : Response) : Except Unit (Option Payload) :=
  fetchOutcome resp

/-- Python truthiness of a fetched payload: None and the empty JSON object
are falsy, any object with a field present is truthy. -/
def truthyPayload : Option Payload → Option Payload
  | none => none
  | some p => if p.description.isSome || p.data.isSome then some p else none

/-- The annual loop: one record per year key of the precipitation series,
in iteration order; int(year_str) raises on a non-integer key; temperature
fields come from the temperature series entry of the same year key when
present, else are null. -/
def annualRecords (precip_base : String) (now : Nat) (yearly_temp : Series) :
    Series → Except Unit (List PrecipRecord)
  | [] => .ok []
  | (year_str, precip_values) :: rest =>
    match pyInt year_str with
    | none => .error ()
    | some year =>
      let tv : Option QR × Option QR :=
        match List.lookup year_str yearly_temp with
        | some temp_values => (temp_values.value, temp_values.anomaly)
        | none => (none, none)
      (annualRecords precip_base now yearly_temp rest).map
        (fun rs =>
          { year := year, region := "United States",
            precipitation_inches := precip_values.value,
            precipitation_anomaly_inches := precip_values.anomaly,
            temperature_fahrenheit := tv.1,
            temperature_anomaly_fahrenheit := tv.2,
            data_type := "Annual Average", base_period := some precip_base,
            updated_at := now } :: rs)

/-- Python decade bucket key: (year // 10) * 10 with floor division. -/
def decadeKey (y : Int) : Int := (Int.fdiv y 10) * 10

/-- Keys in first-occurrence order, each kept once: the iteration order of
the decades dict. -/
def dedupFirstAux (seen : List Int) : List Int → List Int
  | [] => []
  | d :: rest =>
    if seen.contains d then dedupFirstAux seen rest
    else d :: dedupFirstAux (d :: seen) rest

/-- The decade keys of a record list, in the decades dict iteration order. -/
def decadeOrder (rs : List PrecipRecord) : List Int :=
  dedupFirstAux [] (rs.map (fun r => decadeKey r.year))

/-- The non-null precipitation values accumulated for one decade bucket, in
record order. -/
def bucketPrecips (rs : List PrecipRecord) (d : Int) : List QR :=
  rs.filterMap (fun r => if decadeKey r.year = d then r.precipitation_inches else none)

/-- The non-null temperature values accumulated for one decade bucket, in
record order. -/
def bucketTemps (rs : List PrecipRecord) (d : Int) : List QR :=
  rs.filterMap (fun r => if decadeKey r.year = d then r.temperature_fahrenheit else none)

/-- The decade-average record of one bucket, none when the bucket holds no
precipitation value.  The temperature field reproduces the source's
truthiness test (round(avg_temp, 2) if avg_temp else None): a zero mean is
emitted as null, exactly as a missing mean. -/
def decadeRecord (rs : List PrecipRecord) (now : Nat) (d : Int) : Option PrecipRecord :=
  let precip_values := bucketPrecips rs d
  if precip_values.isEmpty then none
  else
    let avg_precip := listSum precip_values / mkQR precip_values.length 1
    let temp_values := bucketTemps rs d
    let avg_temp : Option QR :=
      if temp_values.isEmpty then none
      else some (listSum temp_values / mkQR temp_values.length 1)
    some { year := d, region := "United States",
           precipitation_inches := some (pyRound 2 avg_precip),
           precipitation_anomaly_inches := none,
           temperature_fahrenheit :=
             match avg_temp with
             | some t => if t = 0 then none else some (pyRound 2 t)
             | none => none,
           temperature_anomaly_fahrenheit := none,
           data_type := "Decade Average", base_period := none, updated_at := now }

/-- The decade loop: one pass over the decades dict in insertion order. -/
def decadeRecords (rs : List PrecipRecord) (now : Nat) : List PrecipRecord :=
  (decadeOrder rs).filterMap (decadeRecord rs now)

/-- The annual phase of the processor applied to the two fetched payloads:
nothing when the precipitation payload is falsy, else the annual loop over
its data object, joining against the temperature payload's data object when
that payload is truthy. -/
def annualsOf (precipFetched tempFetched : Option Payload) (now : Nat) :
    Except Unit (List PrecipRecord) :=
  match truthyPayload precipFetched with
  | none => .ok []
  | some precip_data =>
    let precip_desc := precip_data.description.getD {}
    let precip_base := precip_desc.base_period.getD "1901-2000"
    let yearly_precip := precip_data.data.getD []
    let yearly_temp : Series :=
      match truthyPayload tempFetched with
      | some temp_data => temp_data.data.getD []
      | none => []
    annualRecords precip_base now yearly_temp yearly_precip

/-- process_precipitation_data: read state, gate on the current month string,
fetch the two national series, build annual records, append decade averages,
save state, return the table. -/
def process_precipitation_data (state : RunState) (current_month : String) (now : Nat)
    (precipResp tempResp : Response) : ProcOutput PrecipRecord :=
  if state.last_update = some current_month then
    { result := .ok ⟨schema, []⟩, storeReads := 1, storeWrites := [], fetchCount := 0 }
  else
    match fetch_us_precipitation_data precipResp with
    | .error e => { result := .error e, storeReads := 1, storeWrites := [], fetchCount := 1 }
    | .ok precipFetched =>
      match fetch_us_temperature_data tempResp with
      | .error e => { result := .error e, storeReads := 1, storeWrites := [], fetchCount := 2 }
      | .ok tempFetched =>
        match annualsOf precipFetched tempFetched now with
        | .error e =>
          { result := .error e, storeReads := 1, storeWrites := [], fetchCount := 2 }
        | .ok annuals =>
          let records := if annuals.isEmpty then annuals
                         else annuals ++ decadeRecords annuals now
          { result := .ok ⟨schema, records⟩, storeReads := 1,
            storeWrites := [{ last_update := some current_month,
                              records_processed := some records.length }],
            fetchCount := 2 }

end Precip

/-! Helper lemmas about the embedding. -/

theorem getLastOptMem {α : Type} : ∀ {l : List α} {a : α}, l.getLast? = some a → a ∈ l
  | [], _, h => by simp [List.getLast?] at h
  | [x], a, h => by simp [List.getLast?] at h; simp [h]
  | x :: y :: rest, a, h => by
    have h2 : (y :: rest).getLast? = some a := by
      simpa [List.getLast?_cons_cons] using h
    exact List.mem_cons_of_mem _ (getLastOptMem h2)

theorem orderedInsertKey_perm {α : Type} (p : String × α) :
    ∀ l : List (String × α), (orderedInsertKey p l).Perm (p :: l)
  | [] => List.Perm.refl _
  | q :: qs => by
    unfold orderedInsertKey
    by_cases h : strLt q.1 p.1
    · simp only [h, if_true]
      exact ((orderedInsertKey_perm p qs).cons q).trans (List.Perm.swap p q qs)
    · simp only [h, if_false]
      exact List.Perm.refl _

theorem sortPairs_perm {α : Type} : ∀ l : List (String × α), (sortPairs l).Perm l
  | [] => List.Perm.refl _
  | p :: l => by
    have h1 : sortPairs (p :: l) = orderedInsertKey p (sortPairs l) := rfl
    rw [h1]
    exact (orderedInsertKey_perm p (sortPairs l)).trans ((sortPairs_perm l).cons p)

theorem sortPairs_length {α : Type} (l : List (String × α)) :
    (sortPairs l).length = l.length :=
  (sortPairs_perm l).length_eq

theorem mem_sortPairs {α : Type} {l : List (String × α)} {x : String × α} :
    x ∈ sortPairs l ↔ x ∈ l :=
  (sortPairs_perm l).mem_iff

theorem orderedInsertKey_map {α β : Type} (g : α → β) (p : String × α) :
    ∀ l : List (String × α),
      orderedInsertKey (p.1, g p.2) (l.map (fun q => (q.1, g q.2)))
        = (orderedInsertKey p l).map (fun q => (q.1, g q.2))
  | [] => rfl
  | q :: qs => by
    unfold orderedInsertKey
    by_cases h : strLt q.1 p.1
    · simp only [List.map_cons, h, if_true]
      rw [← orderedInsertKey_map g p qs]
    · simp [h]

theorem sortPairs_map {α β : Type} (g : α → β) :
    ∀ l : List (String × α),
      sortPairs (l.map (fun q => (q.1, g q.2))) = (sortPairs l).map (fun q => (q.1, g q.2))
  | [] => rfl
  | p :: l => by
    have h1 : sortPairs ((p :: l).map (fun q => (q.1, g q.2)))
        = orderedInsertKey (p.1, g p.2) (sortPairs (l.map (fun q => (q.1, g q.2)))) := rfl
    rw [h1, sortPairs_map g l, orderedInsertKey_map g p]
    rfl

theorem runSteps_ok {ι α : Type} (step : ι → Nat × Except Unit (List α)) :
    ∀ l : List ι, (∀ c ∈ l, isOkE (step c).2 = true) →
      runSteps step l = ((l.map (fun c => (step c).1)).sum,
        .ok (l.flatMap (fun c => okRows (step c).2)))
  | [], _ => rfl
  | c :: rest, h => by
    have hc : isOkE (step c).2 = true := h c (List.mem_cons_self c rest)
    have hrest := runSteps_ok step rest (fun d hd => h d (List.mem_cons_of_mem c hd))
    cases hstep : step c with
    | mk k r =>
      cases r with
      | error e => rw [hstep] at hc; simp [isOkE] at hc
      | ok recs =>
        simp only [runSteps, hstep, hrest, List.map_cons, List.sum_cons, List.flatMap_cons]
        simp [okRows]

theorem runSteps_error {ι α : Type} (step : ι → Nat × Except Unit (List α)) :
    ∀ (l : List ι) (c : ι), c ∈ l → (step c).2 = .error () →
      (runSteps step l).2 = .error ()
  | [], c, hc, _ => by simp at hc
  | d :: rest, c, hc, herr => by
    cases hstep : step d with
    | mk k r =>
      cases r with
      | error e => simp [runSteps, hstep]
      | ok recs =>
        rcases List.mem_cons.mp hc with hcd | hcr
        · subst hcd; rw [hstep] at herr; simp at herr
        · have := runSteps_error step rest c hcr herr
          cases hrest : runSteps step rest with
          | mk k2 r2 =>
            rw [hrest] at this
            simp at this
            subst this
            simp [runSteps, hstep, hrest]

theorem runSteps_mem {ι α : Type} (step : ι → Nat × Except Unit (List α)) :
    ∀ (l : List ι) (rows : List α), (runSteps step l).2 = .ok rows →
      ∀ r ∈ rows, ∃ c ∈ l, ∃ rs, (step c).2 = .ok rs ∧ r ∈ rs
  | [], rows, hok, r, hr => by
    simp only [runSteps] at hok
    cases hok
    simp at hr
  | d :: rest, rows, hok, r, hr => by
    cases hstep : step d with
    | mk k rr =>
      cases rr with
      | error e => simp [runSteps, hstep] at hok
      | ok recs =>
        cases hrest : runSteps step rest with
        | mk k2 r2 =>
          cases r2 with
          | error e => simp [runSteps, hstep, hrest] at hok
          | ok rows2 =>
            simp only [runSteps, hstep, hrest] at hok
            cases hok
            rcases List.mem_append.mp hr with hrec | hrow2
            · exact ⟨d, List.mem_cons_self d rest, recs, by rw [hstep], hrec⟩
            · rcases runSteps_mem step rest rows2 (by rw [hrest]) r hrow2 with
                ⟨c, hcl, rs, hcs, hrs⟩
              exact ⟨c, List.mem_cons_of_mem d hcl, rs, hcs, hrs⟩

namespace Precip

theorem mem_dedupFirstAux : ∀ (l seen : List Int) (x : Int),
    x ∈ dedupFirstAux seen l → x ∈ l
  | [], _, x, h => by simp [dedupFirstAux] at h
  | d :: rest, seen, x, h => by
    unfold dedupFirstAux at h
    by_cases hd : seen.contains d
    · simp only [hd, if_true] at h
      exact List.mem_cons_of_mem d (mem_dedupFirstAux rest seen x h)
    · simp only [hd, if_false] at h
      rcases List.mem_cons.mp h with hxd | hx
      · exact hxd ▸ List.mem_cons_self d rest
      · exact List.mem_cons_of_mem d (mem_dedupFirstAux rest (d :: seen) x hx)

theorem dedupFirstAux_not_seen : ∀ (l seen : List Int) (x : Int),
    x ∈ dedupFirstAux seen l → ¬ x ∈ seen
  | [], _, x, h => by simp [dedupFirstAux] at h
  | d :: rest, seen, x, h => by
    unfold dedupFirstAux at h
    by_cases hd : seen.contains d
    · simp only [hd, if_true] at h
      exact dedupFirstAux_not_seen rest seen x h
    · simp only [hd, if_false] at h
      rcases List.mem_cons.mp h with hxd | hx
      · subst hxd
        intro hmem
        exact hd (List.elem_iff.mpr hmem)
      · have h2 := dedupFirstAux_not_seen rest (d :: seen) x hx
        intro hmem
        exact h2 (List.mem_cons_of_mem d hmem)

theorem dedupFirstAux_nodup : ∀ (l seen : List Int), (dedupFirstAux seen l).Nodup
  | [], _ => List.nodup_nil
  | d :: rest, seen => by
    unfold dedupFirstAux
    by_cases hd : seen.contains d
    · simp only [hd, if_true]
      exact dedupFirstAux_nodup rest seen
    · simp only [hd, if_false]
      refine List.Nodup.cons ?_ (dedupFirstAux_nodup rest (d :: seen))
      intro hmem
      exact dedupFirstAux_not_seen rest (d :: seen) d hmem (List.mem_cons_self d seen)

theorem mem_dedupFirstAux_of : ∀ (l seen : List Int) (x : Int),
    x ∈ l → ¬ x ∈ seen → x ∈ dedupFirstAux seen l
  | [], _, x, h, _ => by simp at h
  | d :: rest, seen, x, h, hseen => by
    unfold dedupFirstAux
    by_cases hd : seen.contains d
    · simp only [hd, if_true]
      rcases List.mem_cons.mp h with hxd | hx
      · subst hxd
        exact absurd (List.elem_iff.mp hd) hseen
      · exact mem_dedupFirstAux_of rest seen x hx hseen
    · simp only [hd, if_false]
      rcases List.mem_cons.mp h with hxd | hx
      · exact hxd ▸ List.mem_cons_self d _
      · by_cases hxd : x = d
        · exact hxd ▸ List.mem_cons_self d _
        · refine List.mem_cons_of_mem d (mem_dedupFirstAux_of rest (d :: seen) x hx ?_)
          intro hmem
          rcases List.mem_cons.mp hmem with h1 | h2
          · exact hxd h1
          · exact hseen h2

theorem decadeRecord_year {rs : List PrecipRecord} {now : Nat} {d : Int} {r : PrecipRecord}
    (h : decadeRecord rs now d = some r) : r.year = d := by
  unfold decadeRecord at h
  by_cases hp : (bucketPrecips rs d).isEmpty
  · simp [hp] at h
  · simp only [hp, Bool.false_eq_true, if_false] at h
    cases h
    rfl

theorem decadeRecord_isSome {rs : List PrecipRecord} {now : Nat} {d : Int}
    (h : bucketPrecips rs d ≠ []) : ∃ r, decadeRecord rs now d = some r := by
  unfold decadeRecord
  have hp : (bucketPrecips rs d).isEmpty = false := by
    cases hb : bucketPrecips rs d with
    | nil => exact absurd hb h
    | cons a l => rfl
  simp only [hp, Bool.false_eq_true, if_false]
  exact ⟨_, rfl⟩

theorem bucket_mem_decadeOrder {rs : List PrecipRecord} {d : Int}
    (h : bucketPrecips rs d ≠ []) : d ∈ decadeOrder rs := by
  have hex : ∃ q, q ∈ bucketPrecips rs d := by
    cases hb : bucketPrecips rs d with
    | nil => exact absurd hb h
    | cons a l => exact ⟨a, by simp [hb]⟩
  rcases hex with ⟨q, hq⟩
  unfold bucketPrecips at hq
  rcases List.mem_filterMap.mp hq with ⟨r, hr, hcond⟩
  by_cases hd : decadeKey r.year = d
  · refine mem_dedupFirstAux_of _ [] d ?_ (by simp)
    exact hd ▸ List.mem_map_of_mem (fun r => decadeKey r.year) hr
  · simp [hd] at hcond

theorem filter_year_not_mem {rs : List PrecipRecord} {now : Nat} {d : Int} :
    ∀ ds : List Int, ¬ d ∈ ds →
      (ds.filterMap (decadeRecord rs now)).filter (fun r => r.year == d) = []
  | [], _ => rfl
  | d0 :: ds, hmem => by
    have hd0 : d0 ≠ d := fun h => hmem (h ▸ List.mem_cons_self d0 ds)
    have hds : ¬ d ∈ ds := fun h => hmem (List.mem_cons_of_mem d0 h)
    cases h0 : decadeRecord rs now d0 with
    | none => simpa [List.filterMap_cons, h0] using filter_year_not_mem ds hds
    | some r =>
      have hry : r.year = d0 := decadeRecord_year h0
      have : (r.year == d) = false := by simp [hry, hd0]
      simpa [List.filterMap_cons, h0, List.filter_cons, this] using
        filter_year_not_mem ds hds

theorem filter_filterMap_decade {rs : List PrecipRecord} {now : Nat} {d : Int} :
    ∀ ds : List Int, ds.Nodup →
      (ds.filterMap (decadeRecord rs now)).filter (fun r => r.year == d)
        = if d ∈ ds then (decadeRecord rs now d).toList.filter (fun r => r.year == d)
          else []
  | [], _ => by simp
  | d0 :: ds, hnd => by
    have hd0ds : ¬ d0 ∈ ds := (List.nodup_cons.mp hnd).1
    have hds : ds.Nodup := (List.nodup_cons.mp hnd).2
    by_cases hdd : d = d0
    · subst hdd
      have htail : (ds.filterMap (decadeRecord rs now)).filter (fun r => r.year == d) =
          [] := filter_year_not_mem ds hd0ds
      cases h0 : decadeRecord rs now d with
      | none => simp [List.filterMap_cons, h0, htail]
      | some r =>
        have hry : r.year = d := decadeRecord_year h0
        simp [List.filterMap_cons, h0, List.filter_cons, hry, htail]
    · have hiff : (d ∈ d0 :: ds) ↔ (d ∈ ds) := by
        simp [List.mem_cons, hdd]
      cases h0 : decadeRecord rs now d0 with
      | none =>
        rw [List.filterMap_cons, h0, filter_filterMap_decade ds hds,
          if_congr hiff rfl rfl]
      | some r =>
        have hry : r.year = d0 := decadeRecord_year h0
        have hne : (r.year == d) = false := by
          simp [hry]
          exact fun h => hdd h.symm
        rw [List.filterMap_cons, h0, List.filter_cons]
        simp only [hne, Bool.false_eq_true, if_false]
        rw [filter_filterMap_decade ds hds, if_congr hiff rfl rfl]

theorem lookup_eq_none {k : String} : ∀ {l : Series}, ¬ k ∈ l.map Prod.fst →
    List.lookup k l = none
  | [], _ => rfl
  | (k0, v) :: rest, h => by
    have hk0 : k ≠ k0 := by
      intro hk
      exact h (by simp [hk])
    have hrest : ¬ k ∈ rest.map Prod.fst := by
      intro hk
      exact h (by simp [hk])
    have hbeq : (k == k0) = false := by
      simp [hk0]
    simp only [List.lookup, hbeq]
    exact lookup_eq_none hrest

end Precip

namespace GlobalTemp

theorem yearRecords_fields {rn sn b t : String} {now : Nat} :
    ∀ {yd : Series} {recs : List AnomalyRecord},
      yearRecords rn sn b t now yd = .ok recs →
      ∀ r ∈ recs, r.region = rn ∧ r.surface_type = sn
  | [], recs, h => by
    simp only [yearRecords] at h
    cases h
    simp
  | (y, v) :: rest, recs, h => by
    unfold yearRecords at h
    cases hv : v.anomaly with
    | none =>
      rw [hv] at h
      exact yearRecords_fields h
    | some a =>
      rw [hv] at h
      cases hy : pyInt y with
      | none => rw [hy] at h; simp at h
      | some yi =>
        rw [hy] at h
        cases hrest : yearRecords rn sn b t now rest with
        | error e => rw [hrest] at h; simp [Except.map] at h
        | ok rs =>
          rw [hrest] at h
          simp only [Except.map] at h
          cases h
          intro r hr
          rcases List.mem_cons.mp hr with hhead | htail
          · subst hhead; exact ⟨rfl, rfl⟩
          · exact yearRecords_fields hrest r htail

end GlobalTemp

namespace Regional

theorem periodRecord_fields {rn sn : String} {cy : Int} {period now : Nat} {data : Payload}
    {recs : List RegionalRecord} (h : periodRecord rn sn cy period now data = .ok recs) :
    ∀ r ∈ recs, r.region = rn ∧ r.surface_type = sn := by
  simp only [periodRecord] at h
  split at h
  · simp at h
  · cases h
    simp
  · cases h
    intro r hr
    rcases List.mem_cons.mp hr with hhead | htail
    · subst hhead; exact ⟨rfl, rfl⟩
    · simp at htail

theorem reg_processCombo_fields {oracle : String → String → Nat → Response} {cy : Int} {now : Nat}
    {combo : (String × String) × (String × String)} {recs : List RegionalRecord}
    (h : (processCombo oracle cy now combo).2 = .ok recs) :
    ∀ r ∈ recs, r.region = combo.1.2 ∧ r.surface_type = combo.2.2 := by
  unfold processCombo at h
  by_cases hskip : skipCombo combo.1.1 combo.2.1
  · rw [if_pos hskip] at h
    cases h
    simp
  · rw [if_neg hskip] at h
    intro r hr
    rcases runSteps_mem _ periods recs h r hr with ⟨period, hp, rs, hrs, hr2⟩
    unfold periodStep at hrs
    cases hf : fetch_recent_climate_data (oracle combo.1.1 combo.2.1 period) with
    | error e => rw [hf] at hrs; simp at hrs
    | ok pO =>
      rw [hf] at hrs
      cases pO with
      | none =>
        simp only at hrs
        cases hrs
        simp at hr2
      | some data =>
        simp only at hrs
        exact periodRecord_fields hrs r hr2

end Regional

namespace GlobalTemp

theorem gt_processCombo_skip {oracle : String → String → Response} {now : Nat}
    {combo : (String × String) × (String × String)}
    (h : skipCombo combo.1.1 combo.2.1 = true) :
    processCombo oracle now combo = (0, .ok []) := by
  unfold processCombo
  rw [if_pos h]

theorem gt_processCombo_fields {oracle : String → String → Response} {now : Nat}
    {combo : (String × String) × (String × String)} {recs : List AnomalyRecord}
    (h : (processCombo oracle now combo).2 = .ok recs) :
    ∀ r ∈ recs, r.region = combo.1.2 ∧ r.surface_type = combo.2.2 := by
  unfold processCombo at h
  by_cases hskip : skipCombo combo.1.1 combo.2.1
  · rw [if_pos hskip] at h
    simp only at h
    cases h
    simp
  · rw [if_neg hskip] at h
    cases hf : fetch_temperature_data (oracle combo.1.1 combo.2.1) with
    | error e => rw [hf] at h; simp at h
    | ok pO =>
      rw [hf] at h
      cases pO with
      | none =>
        simp only at h
        cases h
        simp
      | some data =>
        simp only at h
        exact yearRecords_fields h

theorem gt_processCombo_404 {oracle : String → String → Response} {now : Nat}
    {combo : (String × String) × (String × String)}
    (h : (oracle combo.1.1 combo.2.1).status = 404) :
    (processCombo oracle now combo).2 = .ok [] := by
  unfold processCombo
  by_cases hskip : skipCombo combo.1.1 combo.2.1
  · rw [if_pos hskip]
  · rw [if_neg hskip]
    have hfe : fetch_temperature_data (oracle combo.1.1 combo.2.1) = .ok none := by
      unfold fetch_temperature_data fetchOutcome
      rw [if_pos h]
    rw [hfe]

theorem gt_processCombo_hard_failure {oracle : String → String → Response} {now : Nat}
    {combo : (String × String) × (String × String)}
    (hskip : skipCombo combo.1.1 combo.2.1 = false)
    (h404 : (oracle combo.1.1 combo.2.1).status ≠ 404)
    (hbad : 400 ≤ (oracle combo.1.1 combo.2.1).status) :
    (processCombo oracle now combo).2 = .error () := by
  unfold processCombo
  rw [if_neg (by simp [hskip])]
  have hfe : fetch_temperature_data (oracle combo.1.1 combo.2.1) = .error () := by
    unfold fetch_temperature_data fetchOutcome
    rw [if_neg h404, if_pos hbad]
  rw [hfe]

theorem gt_combos_check :
    combos.all (fun c =>
      skipCombo c.1.1 c.2.1
      || !((c.1.2 == "Europe") || (c.1.2 == "Asia") || (c.1.2 == "Africa"))
      || !(c.2.2 == "Ocean")) = true := by
  decide

theorem gt_gate_run (st : RunState) (today : String) (now : Nat)
    (oracle : String → String → Response) (h : st.last_update = some today) :
    process_global_temperature_anomalies st today now oracle =
      { result := .ok ⟨schema, []⟩, storeReads := 1, storeWrites := [], fetchCount := 0 } := by
  unfold process_global_temperature_anomalies
  rw [if_pos h]

theorem gt_nogate_run (st : RunState) (today : String) (now : Nat)
    (oracle : String → String → Response) (h : ¬ st.last_update = some today) :
    (∃ k e, runSteps (processCombo oracle now) combos = (k, .error e) ∧
      process_global_temperature_anomalies st today now oracle =
        { result := .error e, storeReads := 1, storeWrites := [], fetchCount := k }) ∨
    (∃ k records, runSteps (processCombo oracle now) combos = (k, .ok records) ∧
      process_global_temperature_anomalies st today now oracle =
        { result := .ok ⟨schema, records⟩, storeReads := 1,
          storeWrites := [{ last_update := some today,
                            records_processed := some records.length }],
          fetchCount := k }) := by
  unfold process_global_temperature_anomalies
  rw [if_neg h]
  rcases hrs : runSteps (processCombo oracle now) combos with ⟨k, r⟩
  cases r with
  | error e => exact Or.inl ⟨k, e, rfl, rfl⟩
  | ok records => exact Or.inr ⟨k, records, rfl, rfl⟩

theorem gt_always_one_read (st : RunState) (today : String) (now : Nat)
    (oracle : String → String → Response) :
    (process_global_temperature_anomalies st today now oracle).storeReads = 1 := by
  unfold process_global_temperature_anomalies
  by_cases h : st.last_update = some today
  · rw [if_pos h]
  · rw [if_neg h]
    rcases hrs : runSteps (processCombo oracle now) combos with ⟨k, r⟩
    cases r <;> rfl

end GlobalTemp

namespace Regional

theorem reg_processCombo_skip {oracle : String → String → Nat → Response} {cy : Int} {now : Nat}
    {combo : (String × String) × (String × String)}
    (h : skipCombo combo.1.1 combo.2.1 = true) :
    processCombo oracle cy now combo = (0, .ok []) := by
  unfold processCombo
  rw [if_pos h]

theorem reg_combos_check :
    combos.all (fun c =>
      skipCombo c.1.1 c.2.1
      || !((c.1.2 == "Europe") || (c.1.2 == "Asia") || (c.1.2 == "Africa"))
      || !(c.2.2 == "Ocean")) = true := by
  decide

theorem reg_gate_run (st : RunState) (cm : String) (cy : Int) (now : Nat)
    (oracle : String → String → Nat → Response) (h : st.last_update = some cm) :
    process_regional_climate_data st cm cy now oracle =
      { result := .ok ⟨schema, []⟩, storeReads := 1, storeWrites := [], fetchCount := 0 } := by
  unfold process_regional_climate_data
  rw [if_pos h]

theorem reg_nogate_run (st : RunState) (cm : String) (cy : Int) (now : Nat)
    (oracle : String → String → Nat → Response) (h : ¬ st.last_update = some cm) :
    (∃ k e, runSteps (processCombo oracle cy now) combos = (k, .error e) ∧
      process_regional_climate_data st cm cy now oracle =
        { result := .error e, storeReads := 1, storeWrites := [], fetchCount := k }) ∨
    (∃ k records, runSteps (processCombo oracle cy now) combos = (k, .ok records) ∧
      process_regional_climate_data st cm cy now oracle =
        { result := .ok ⟨schema, records⟩, storeReads := 1,
          storeWrites := [{ last_update := some cm,
                            records_processed := some records.length }],
          fetchCount := k }) := by
  unfold process_regional_climate_data
  rw [if_neg h]
  rcases hrs : runSteps (processCombo oracle cy now) combos with ⟨k, r⟩
  cases r with
  | error e => exact Or.inl ⟨k, e, rfl, rfl⟩
  | ok records => exact Or.inr ⟨k, records, rfl, rfl⟩

theorem reg_always_one_read (st : RunState) (cm : String) (cy : Int) (now : Nat)
    (oracle : String → String → Nat → Response) :
    (process_regional_climate_data st cm cy now oracle).storeReads = 1 := by
  unfold process_regional_climate_data
  by_cases h : st.last_update = some cm
  · rw [if_pos h]
  · rw [if_neg h]
    rcases hrs : runSteps (processCombo oracle cy now) combos with ⟨k, r⟩
    cases r <;> rfl

end Regional

namespace Precip

theorem pr_gate_run (st : RunState) (cm : String) (now : Nat) (pr tr : Response)
    (h : st.last_update = some cm) :
    process_precipitation_data st cm now pr tr =
      { result := .ok ⟨schema, []⟩, storeReads := 1, storeWrites := [], fetchCount := 0 } := by
  unfold process_precipitation_data
  rw [if_pos h]

theorem pr_nogate_run (st : RunState) (cm : String) (now : Nat) (pr tr : Response)
    (h : ¬ st.last_update = some cm) :
    ((process_precipitation_data st cm now pr tr).result = .error () ∧
      (process_precipitation_data st cm now pr tr).storeWrites = []) ∨
    (∃ annuals, annualsOf (okRowsP (fetch_us_precipitation_data pr))
        (okRowsP (fetch_us_temperature_data tr)) now = .ok annuals ∧
      process_precipitation_data st cm now pr tr =
        { result := .ok ⟨schema,
            if annuals.isEmpty then annuals else annuals ++ decadeRecords annuals now⟩,
          storeReads := 1,
          storeWrites := [{ last_update := some cm,
                            records_processed := some (if annuals.isEmpty then annuals
                              else annuals ++ decadeRecords annuals now).length }],
          fetchCount := 2 }) := by
  unfold process_precipitation_data
  rw [if_neg h]
  cases hp : fetch_us_precipitation_data pr with
  | error e => cases e; exact Or.inl ⟨rfl, rfl⟩
  | ok pf =>
    dsimp only
    cases ht : fetch_us_temperature_data tr with
    | error e => cases e; exact Or.inl ⟨rfl, rfl⟩
    | ok tf =>
      dsimp only
      cases ha : annualsOf pf tf now with
      | error e => cases e; exact Or.inl ⟨rfl, rfl⟩
      | ok annuals =>
        refine Or.inr ⟨annuals, ?_, rfl⟩
        simpa [okRowsP, hp, ht] using ha

theorem pr_always_one_read (st : RunState) (cm : String) (now : Nat) (pr tr : Response) :
    (process_precipitation_data st cm now pr tr).storeReads = 1 := by
  unfold process_precipitation_data
  by_cases h : st.last_update = some cm
  · rw [if_pos h]
  · rw [if_neg h]
    cases hp : fetch_us_precipitation_data pr with
    | error e => rfl
    | ok pf =>
      cases ht : fetch_us_temperature_data tr with
      | error e => rfl
      | ok tf =>
        cases ha : annualsOf pf tf now with
        | error e => simp [ha]
        | ok annuals => simp [ha]

end Precip

namespace Regional

/-- The same series with every missing anomaly made an explicit 0 (what the
claim calls treating a missing anomaly as zero). -/
def fillZero (yd : Series) : Series :=
  yd.map (fun p => (p.1, { value := p.2.value, anomaly := some (p.2.anomaly.getD 0) }))

theorem sortPairs_fillZero (yd : Series) :
    sortPairs (fillZero yd) =
      (sortPairs yd).map
        (fun p => (p.1, { value := p.2.value, anomaly := some (p.2.anomaly.getD 0) })) := by
  have h := sortPairs_map
    (fun e : Entry => ({ value := e.value, anomaly := some (e.anomaly.getD 0) } : Entry)) yd
  simpa [fillZero] using h

theorem calc_fillZero (yd : Series) :
    calculate_trend_statistics yd = calculate_trend_statistics (fillZero yd) := by
  by_cases he : yd.isEmpty
  · have he2 : (fillZero yd).isEmpty = true := by
      cases yd with
      | nil => rfl
      | cons a l => simp at he
    simp [calculate_trend_statistics, he, he2]
  · have he2 : (fillZero yd).isEmpty = false := by
      cases yd with
      | nil => simp at he
      | cons a l => rfl
    simp only [calculate_trend_statistics]
    rw [if_neg he,
      if_neg (show ¬ ((fillZero yd).isEmpty = true) from by simp [he2]),
      sortPairs_fillZero]
    have hanom : ((sortPairs yd).map
          (fun p => (p.1, ({ value := p.2.value, anomaly := some (p.2.anomaly.getD 0) } : Entry)))).map
          (fun p => p.2.anomaly.getD 0)
        = (sortPairs yd).map (fun p => p.2.anomaly.getD 0) := by
      rw [List.map_map]
      rfl
    have hfst : ((sortPairs yd).map
          (fun p => (p.1, ({ value := p.2.value, anomaly := some (p.2.anomaly.getD 0) } : Entry)))).map
          Prod.fst
        = (sortPairs yd).map Prod.fst := by
      rw [List.map_map]
      rfl
    rw [hanom, hfst]

theorem calc_dir_mag {yd : Series} {st : TrendStats} (h2 : 2 ≤ yd.length)
    (h : calculate_trend_statistics yd = .ok (some st)) :
    st.trend_direction =
      (if ((listSum ((anomaliesOf yd).take (yd.length / 2)) / mkQR (yd.length / 2) 1).blt
            (listSum ((anomaliesOf yd).drop (yd.length / 2))
              / mkQR (yd.length - yd.length / 2) 1))
       then "warming" else "cooling") ∧
    st.trend_magnitude = pyRound 3
      (QR.abs (listSum ((anomaliesOf yd).drop (yd.length / 2))
          / mkQR (yd.length - yd.length / 2) 1
        - listSum ((anomaliesOf yd).take (yd.length / 2)) / mkQR (yd.length / 2) 1)) := by
  have hne : yd.isEmpty = false := by
    cases yd with
    | nil => simp at h2
    | cons a l => rfl
  simp only [calculate_trend_statistics] at h
  rw [if_neg (by simp [hne])] at h
  have hlen : ((sortPairs yd).map (fun p => p.2.anomaly.getD 0)).length = yd.length := by
    simp [sortPairs_length]
  rw [hlen, if_pos h2] at h
  simp only [Except.map] at h
  cases hy : (List.map Prod.fst (sortPairs yd)).getLast? with
  | none =>
    rw [hy] at h
    dsimp only at h
    simp only [Except.ok.injEq, Option.some.injEq] at h
    subst h
    exact ⟨rfl, rfl⟩
  | some y =>
    rw [hy] at h
    dsimp only at h
    cases hp : pyInt y with
    | none =>
      rw [hp] at h
      dsimp only at h
      simp at h
    | some i =>
      rw [hp] at h
      dsimp only at h
      simp only [Except.ok.injEq, Option.some.injEq] at h
      subst h
      exact ⟨rfl, rfl⟩

theorem calc_stable {yd : Series} {st : TrendStats} (h1 : yd.length = 1)
    (h : calculate_trend_statistics yd = .ok (some st)) :
    st.trend_direction = "stable" ∧ st.trend_magnitude = 0 := by
  have hne : yd.isEmpty = false := by
    cases yd with
    | nil => simp at h1
    | cons a l => rfl
  simp only [calculate_trend_statistics] at h
  rw [if_neg (by simp [hne])] at h
  have hlen : ((sortPairs yd).map (fun p => p.2.anomaly.getD 0)).length = yd.length := by
    simp [sortPairs_length]
  rw [hlen, h1, if_neg (by decide)] at h
  simp only [Except.map] at h
  cases hy : (List.map Prod.fst (sortPairs yd)).getLast? with
  | none =>
    rw [hy] at h
    dsimp only at h
    simp only [Except.ok.injEq, Option.some.injEq] at h
    subst h
    exact ⟨rfl, rfl⟩
  | some y =>
    rw [hy] at h
    dsimp only at h
    cases hp : pyInt y with
    | none =>
      rw [hp] at h
      dsimp only at h
      simp at h
    | some i =>
      rw [hp] at h
      dsimp only at h
      simp only [Except.ok.injEq, Option.some.injEq] at h
      subst h
      exact ⟨rfl, rfl⟩

theorem calc_ok (yd : Series) (hk : ∀ k ∈ yd.map Prod.fst, (pyInt k).isSome) :
    ∃ o, calculate_trend_statistics yd = .ok o := by
  by_cases he : yd.isEmpty
  · exact ⟨none, by simp [calculate_trend_statistics, he]⟩
  · simp only [calculate_trend_statistics]
    rw [if_neg he]
    cases hy : ((sortPairs yd).map Prod.fst).getLast? with
    | none => exact ⟨_, rfl⟩
    | some y =>
      have hymem : y ∈ (sortPairs yd).map Prod.fst := getLastOptMem hy
      rcases List.mem_map.mp hymem with ⟨p, hp, hpy⟩
      have hpyd : p ∈ yd := mem_sortPairs.mp hp
      have : (pyInt y).isSome := hk y (hpy ▸ List.mem_map_of_mem Prod.fst hpyd)
      rcases Option.isSome_iff_exists.mp this with ⟨i, hi⟩
      dsimp only
      rw [hi]
      exact ⟨_, rfl⟩

end Regional

namespace GlobalTemp

theorem yearRecords_ok {rn sn b t : String} {now : Nat} :
    ∀ yd : Series, (∀ kv ∈ yd, kv.2.anomaly.isSome → (pyInt kv.1).isSome) →
      ∃ recs, yearRecords rn sn b t now yd = .ok recs
  | [], _ => ⟨[], rfl⟩
  | (k, v) :: rest, h => by
    rcases yearRecords_ok rest (fun kv hkv ha => h kv (List.mem_cons_of_mem _ hkv) ha) with
      ⟨recs, hrecs⟩
    unfold yearRecords
    cases hv : v.anomaly with
    | none => exact ⟨recs, hrecs⟩
    | some a =>
      have : (pyInt k).isSome := h (k, v) (List.mem_cons_self _ _) (by simp [hv])
      rcases Option.isSome_iff_exists.mp this with ⟨y, hy⟩
      rw [hy, hrecs]
      exact ⟨_, rfl⟩

theorem yearRecords_error {rn sn b t : String} {now : Nat} :
    ∀ yd : Series, (∃ kv ∈ yd, kv.2.anomaly.isSome ∧ pyInt kv.1 = none) →
      yearRecords rn sn b t now yd = .error ()
  | [], h => by simp at h
  | (k, v) :: rest, h => by
    unfold yearRecords
    cases hv : v.anomaly with
    | none =>
      refine yearRecords_error rest ?_
      rcases h with ⟨kv, hkv, hsome, hnone⟩
      rcases List.mem_cons.mp hkv with hh | ht
      · subst hh; simp [hv] at hsome
      · exact ⟨kv, ht, hsome, hnone⟩
    | some a =>
      cases hkp : pyInt k with
      | none => rfl
      | some y =>
        have hrest : ∃ kv ∈ rest, kv.2.anomaly.isSome ∧ pyInt kv.1 = none := by
          rcases h with ⟨kv, hkv, hsome, hnone⟩
          rcases List.mem_cons.mp hkv with hh | ht
          · subst hh; rw [hkp] at hnone; simp at hnone
          · exact ⟨kv, ht, hsome, hnone⟩
        rw [yearRecords_error rest hrest]
        rfl

end GlobalTemp

namespace Precip

theorem annualRecords_spec (b : String) (now : Nat) (yt : Series) :
    ∀ yd : Series, (∀ k ∈ yd.map Prod.fst, (pyInt k).isSome) →
      ∃ l, annualRecords b now yt yd = .ok l ∧ l.length = yd.length ∧
        ∀ i kv, yd.get? i = some kv →
          ∃ r, l.get? i = some r ∧
            pyInt kv.1 = some r.year ∧
            r.region = "United States" ∧
            r.precipitation_inches = kv.2.value ∧
            r.precipitation_anomaly_inches = kv.2.anomaly ∧
            r.temperature_fahrenheit =
              (match List.lookup kv.1 yt with
               | some tv => tv.value
               | none => none) ∧
            r.temperature_anomaly_fahrenheit =
              (match List.lookup kv.1 yt with
               | some tv => tv.anomaly
               | none => none) ∧
            r.data_type = "Annual Average" ∧ r.base_period = some b ∧ r.updated_at = now
  | [], _ => ⟨[], rfl, rfl, by intro i kv h; simp at h⟩
  | (k, pv) :: rest, hk => by
    have hkp : (pyInt k).isSome := hk k (by simp)
    rcases Option.isSome_iff_exists.mp hkp with ⟨y, hy⟩
    rcases annualRecords_spec b now yt rest (fun k2 h2 => hk k2 (by simp [h2])) with
      ⟨l, hl, hlen, hspec⟩
    refine ⟨({ year := y, region := "United States",
               precipitation_inches := pv.value,
               precipitation_anomaly_inches := pv.anomaly,
               temperature_fahrenheit :=
                 (match List.lookup k yt with
                  | some tv => (tv.value, tv.anomaly)
                  | none => (none, none)).1,
               temperature_anomaly_fahrenheit :=
                 (match List.lookup k yt with
                  | some tv => (tv.value, tv.anomaly)
                  | none => (none, none)).2,
               data_type := "Annual Average", base_period := some b,
               updated_at := now } : PrecipRecord) :: l, ?_, ?_, ?_⟩
    · unfold annualRecords
      rw [hy, hl]
      rfl
    · simpa using hlen
    · intro i kv hkv
      cases i with
      | zero =>
        cases hkv
        cases hlk : List.lookup k yt with
        | none => exact ⟨_, rfl, hy, rfl, rfl, rfl, by simp [hlk], by simp [hlk], rfl, rfl, rfl⟩
        | some tv => exact ⟨_, rfl, hy, rfl, rfl, rfl, by simp [hlk], by simp [hlk], rfl, rfl, rfl⟩
      | succ n =>
        simp only [List.get?] at hkv
        rcases hspec n kv hkv with ⟨r, hr, hrest⟩
        exact ⟨r, by simpa using hr, hrest⟩

theorem annualRecords_error (b : String) (now : Nat) (yt : Series) :
    ∀ yd : Series, (∃ k ∈ yd.map Prod.fst, pyInt k = none) →
      annualRecords b now yt yd = .error ()
  | [], h => by simp at h
  | (k, pv) :: rest, h => by
    unfold annualRecords
    cases hkp : pyInt k with
    | none => rfl
    | some y =>
      have hrest : ∃ k2 ∈ rest.map Prod.fst, pyInt k2 = none := by
        rcases h with ⟨k2, hk2, hnone⟩
        simp only [List.map_cons, List.mem_cons] at hk2
        rcases hk2 with hh | ht
        · subst hh; rw [hkp] at hnone; simp at hnone
        · exact ⟨k2, ht, hnone⟩
      rw [annualRecords_error b now yt rest hrest]
      rfl

end Precip

namespace Precip

theorem decadeRecord_eq {rs : List PrecipRecord} {now : Nat} {d : Int}
    (h : bucketPrecips rs d ≠ []) :
    decadeRecord rs now d = some
      { year := d, region := "United States",
        precipitation_inches := some (pyRound 2
          (listSum (bucketPrecips rs d) / mkQR (bucketPrecips rs d).length 1)),
        precipitation_anomaly_inches := none,
        temperature_fahrenheit :=
          (match (if (bucketTemps rs d).isEmpty then none
                  else some (listSum (bucketTemps rs d) / mkQR (bucketTemps rs d).length 1)) with
           | some t => if t = 0 then none else some (pyRound 2 t)
           | none => none),
        temperature_anomaly_fahrenheit := none,
        data_type := "Decade Average", base_period := none, updated_at := now } := by
  have hp : (bucketPrecips rs d).isEmpty = false := by
    cases hb : bucketPrecips rs d with
    | nil => exact absurd hb h
    | cons a l => rfl
  simp only [decadeRecord]
  rw [hp]
  rfl

end Precip

/-! Concrete fixtures used by the claim theorems below. -/

/-- The trend example series 2000 to 2003 with anomalies 0.1, 0.2, 0.5, 0.6. -/
def c1Series : Series :=
  [("2000", { anomaly := some (mkQR 1 10) }), ("2001", { anomaly := some (mkQR 2 10) }),
   ("2002", { anomaly := some (mkQR 5 10) }), ("2003", { anomaly := some (mkQR 6 10) })]

/-- The statistics the calculator returns on c1Series. -/
def c1Stats : Regional.TrendStats :=
  { avg_anomaly := mkQR 7 20, min_anomaly := mkQR 1 10, max_anomaly := mkQR 3 5,
    trend_direction := "warming", trend_magnitude := mkQR 2 5,
    latest_anomaly := some (mkQR 3 5), latest_year := some 2003 }

/-- A two-year series whose half-mean difference 0.0001 is rounded away. -/
def c1CexSeries : Series :=
  [("2000", { anomaly := some (mkQR 1 10000) }), ("2001", { anomaly := some 0 })]

/-- A series whose second year reports no anomaly. -/
def c2Series : Series :=
  [("2000", { anomaly := some (mkQR 1 2) }), ("2001", {})]

/-! Claim theorems. -/

/-- C1 (amended): for a series of at least two entries, whenever
calculate_trend_statistics returns statistics, it sorts the entries by their
year-string keys (chronological for equal-length keys such as four-digit
years), takes the first floor(n/2) anomalies as the first half and the rest
as the second half, reports warming exactly when the second-half mean
strictly exceeds the first-half mean and cooling otherwise, and reports a
trend magnitude equal to the absolute difference of the two half-means
rounded to 3 decimal places; a one-entry series yields stable with magnitude
0; the empty series yields no statistics (None) rather than a stable result;
and on the series 2000 to 2003 with anomalies 0.1, 0.2, 0.5, 0.6 it returns
warming with magnitude 0.4. -/
theorem claim_C1_trend_calculation :
    (∀ (yd : Series) (st : Regional.TrendStats), 2 ≤ yd.length →
        Regional.calculate_trend_statistics yd = .ok (some st) →
        st.trend_direction =
          (if ((listSum ((Regional.anomaliesOf yd).take (yd.length / 2))
                  / mkQR (yd.length / 2) 1).blt
                (listSum ((Regional.anomaliesOf yd).drop (yd.length / 2))
                  / mkQR (yd.length - yd.length / 2) 1))
           then "warming" else "cooling") ∧
        st.trend_magnitude = pyRound 3
          (QR.abs (listSum ((Regional.anomaliesOf yd).drop (yd.length / 2))
              / mkQR (yd.length - yd.length / 2) 1
            - listSum ((Regional.anomaliesOf yd).take (yd.length / 2))
              / mkQR (yd.length / 2) 1)))
  ∧ (∀ (yd : Series) (st : Regional.TrendStats), yd.length = 1 →
        Regional.calculate_trend_statistics yd = .ok (some st) →
        st.trend_direction = "stable" ∧ st.trend_magnitude = 0)
  ∧ Regional.calculate_trend_statistics [] = .ok none
  ∧ Regional.calculate_trend_statistics c1Series = .ok (some c1Stats) :=
  ⟨fun _ _ h2 h => Regional.calc_dir_mag h2 h,
   fun _ _ h1 h => Regional.calc_stable h1 h,
   rfl,
   by decide⟩

/-- C1 witness: the amended statement applied to the concrete example
series, with every hypothesis discharged there. -/
theorem claim_C1_witness :
    c1Stats.trend_direction =
      (if ((listSum ((Regional.anomaliesOf c1Series).take (c1Series.length / 2))
              / mkQR (c1Series.length / 2) 1).blt
            (listSum ((Regional.anomaliesOf c1Series).drop (c1Series.length / 2))
              / mkQR (c1Series.length - c1Series.length / 2) 1))
       then "warming" else "cooling") ∧
    c1Stats.trend_magnitude = pyRound 3
      (QR.abs (listSum ((Regional.anomaliesOf c1Series).drop (c1Series.length / 2))
          / mkQR (c1Series.length - c1Series.length / 2) 1
        - listSum ((Regional.anomaliesOf c1Series).take (c1Series.length / 2))
          / mkQR (c1Series.length / 2) 1)) :=
  claim_C1_trend_calculation.1 c1Series c1Stats (by decide) (by decide)

/-- C1 counterexample: on the two-entry series with anomalies 0.0001 and 0,
the returned trend_magnitude is 0, while the absolute difference of the two
half-means is 0.0001; so the returned magnitude is not equal to the absolute
difference of the half-means (the claim omits the rounding to 3 decimal
places). -/
theorem claim_C1_counterexample :
    (Regional.calculate_trend_statistics c1CexSeries).map
        (Option.map Regional.TrendStats.trend_magnitude) = .ok (some (0 : QR))
  ∧ QR.abs (listSum ((Regional.anomaliesOf c1CexSeries).drop 1) / mkQR 1 1
      - listSum ((Regional.anomaliesOf c1CexSeries).take 1) / mkQR 1 1) = mkQR 1 10000
  ∧ ¬ ((0 : QR) = mkQR 1 10000) := by
  decide

/-- C2: calculate_trend_statistics computes exactly the same result on a
series as on the series with every missing anomaly replaced by an explicit 0
(the missing year is aggregated as a zero anomaly, not excluded); on the
concrete series with anomalies 0.5 and missing, the mean is 0.25, the
minimum is 0 and the latest value is 0. -/
theorem claim_C2_missing_anomaly_zero :
    (∀ yd : Series,
        Regional.calculate_trend_statistics yd
          = Regional.calculate_trend_statistics (Regional.fillZero yd))
  ∧ (Regional.calculate_trend_statistics c2Series).map
        (Option.map (fun st =>
          (st.avg_anomaly, st.min_anomaly, st.max_anomaly, st.latest_anomaly)))
      = .ok (some (mkQR 1 4, 0, mkQR 1 2, some (0 : QR))) :=
  ⟨Regional.calc_fillZero, by decide⟩

/-- An oracle whose every response is an empty success payload. -/
def oracle200 : String → String → Response := fun _ _ => ⟨200, {}⟩

/-- An oracle whose every response is 404. -/
def oracle404 : String → String → Response := fun _ _ => ⟨404, {}⟩

/-- An oracle whose every response is a 500 hard failure. -/
def oracle500 : String → String → Response := fun _ _ => ⟨500, {}⟩

/-- A regional oracle whose every response is an empty success payload. -/
def oracleReg200 : String → String → Nat → Response := fun _ _ _ => ⟨200, {}⟩

/-- C3: when the persisted last_update equals the current period string, each
of the three processors returns an empty table still carrying its full
declared schema, performs no remote fetch and writes no state; consequently
a second invocation within the same period after a successful run returns
the empty schema-typed table. -/
theorem claim_C3_idempotence_gate :
    (∀ (st : RunState) (today : String) (now : Nat) (oracle : String → String → Response),
        st.last_update = some today →
        (GlobalTemp.process_global_temperature_anomalies st today now oracle).result
            = .ok ⟨GlobalTemp.schema, []⟩
          ∧ (GlobalTemp.process_global_temperature_anomalies st today now oracle).fetchCount = 0
          ∧ (GlobalTemp.process_global_temperature_anomalies st today now oracle).storeWrites = [])
  ∧ (∀ (st : RunState) (cm : String) (cy : Int) (now : Nat)
        (oracle : String → String → Nat → Response),
        st.last_update = some cm →
        (Regional.process_regional_climate_data st cm cy now oracle).result
            = .ok ⟨Regional.schema, []⟩
          ∧ (Regional.process_regional_climate_data st cm cy now oracle).fetchCount = 0
          ∧ (Regional.process_regional_climate_data st cm cy now oracle).storeWrites = [])
  ∧ (∀ (st : RunState) (cm : String) (now : Nat) (pr tr : Response),
        st.last_update = some cm →
        (Precip.process_precipitation_data st cm now pr tr).result = .ok ⟨Precip.schema, []⟩
          ∧ (Precip.process_precipitation_data st cm now pr tr).fetchCount = 0
          ∧ (Precip.process_precipitation_data st cm now pr tr).storeWrites = [])
  ∧ (∀ (st : RunState) (today : String) (now : Nat) (oracle : String → String → Response)
        (t : PaTable GlobalTemp.AnomalyRecord),
        (GlobalTemp.process_global_temperature_anomalies st today now oracle).result = .ok t →
        ∀ st2 ∈ (GlobalTemp.process_global_temperature_anomalies st today now oracle).storeWrites,
          ∀ (now2 : Nat) (oracle2 : String → String → Response),
            (GlobalTemp.process_global_temperature_anomalies st2 today now2 oracle2).result
              = .ok ⟨GlobalTemp.schema, []⟩)
  ∧ (∀ (st : RunState) (cm : String) (cy : Int) (now : Nat)
        (oracle : String → String → Nat → Response) (t : PaTable Regional.RegionalRecord),
        (Regional.process_regional_climate_data st cm cy now oracle).result = .ok t →
        ∀ st2 ∈ (Regional.process_regional_climate_data st cm cy now oracle).storeWrites,
          ∀ (cy2 : Int) (now2 : Nat) (oracle2 : String → String → Nat → Response),
            (Regional.process_regional_climate_data st2 cm cy2 now2 oracle2).result
              = .ok ⟨Regional.schema, []⟩)
  ∧ (∀ (st : RunState) (cm : String) (now : Nat) (pr tr : Response)
        (t : PaTable Precip.PrecipRecord),
        (Precip.process_precipitation_data st cm now pr tr).result = .ok t →
        ∀ st2 ∈ (Precip.process_precipitation_data st cm now pr tr).storeWrites,
          ∀ (now2 : Nat) (pr2 tr2 : Response),
            (Precip.process_precipitation_data st2 cm now2 pr2 tr2).result
              = .ok ⟨Precip.schema, []⟩) := by
  refine ⟨?_, ?_, ?_, ?_, ?_, ?_⟩
  · intro st today now oracle h
    rw [GlobalTemp.gt_gate_run st today now oracle h]
    exact ⟨rfl, rfl, rfl⟩
  · intro st cm cy now oracle h
    rw [Regional.reg_gate_run st cm cy now oracle h]
    exact ⟨rfl, rfl, rfl⟩
  · intro st cm now pr tr h
    rw [Precip.pr_gate_run st cm now pr tr h]
    exact ⟨rfl, rfl, rfl⟩
  · intro st today now oracle t hok st2 hst2 now2 oracle2
    by_cases h : st.last_update = some today
    · rw [GlobalTemp.gt_gate_run st today now oracle h] at hst2
      simp at hst2
    · rcases GlobalTemp.gt_nogate_run st today now oracle h with
        ⟨k, e, hrs, heq⟩ | ⟨k, records, hrs, heq⟩
      · rw [heq] at hok
        simp at hok
      · rw [heq] at hst2
        simp only [List.mem_singleton] at hst2
        subst hst2
        rw [GlobalTemp.gt_gate_run ⟨some today, some records.length⟩ today now2 oracle2 rfl]
  · intro st cm cy now oracle t hok st2 hst2 cy2 now2 oracle2
    by_cases h : st.last_update = some cm
    · rw [Regional.reg_gate_run st cm cy now oracle h] at hst2
      simp at hst2
    · rcases Regional.reg_nogate_run st cm cy now oracle h with
        ⟨k, e, hrs, heq⟩ | ⟨k, records, hrs, heq⟩
      · rw [heq] at hok
        simp at hok
      · rw [heq] at hst2
        simp only [List.mem_singleton] at hst2
        subst hst2
        rw [Regional.reg_gate_run ⟨some cm, some records.length⟩ cm cy2 now2 oracle2 rfl]
  · intro st cm now pr tr t hok st2 hst2 now2 pr2 tr2
    by_cases h : st.last_update = some cm
    · rw [Precip.pr_gate_run st cm now pr tr h] at hst2
      simp at hst2
    · rcases Precip.pr_nogate_run st cm now pr tr h with
        ⟨hres, hwr⟩ | ⟨annuals, hann, heq⟩
      · rw [hwr] at hst2
        simp at hst2
      · rw [heq] at hst2
        simp only [List.mem_singleton] at hst2
        subst hst2
        rw [Precip.pr_gate_run ⟨some cm, some (if annuals.isEmpty then annuals else annuals ++ Precip.decadeRecords annuals now).length⟩ cm now2 pr2 tr2 rfl]

/-- C3 witness: each gate statement and each second-run statement applied at
a concrete state, period and oracle, every hypothesis discharged there. -/
theorem claim_C3_witness :
    ((GlobalTemp.process_global_temperature_anomalies ⟨some "2026-01-02", none⟩
        "2026-01-02" 0 oracle200).result = .ok ⟨GlobalTemp.schema, []⟩
      ∧ (GlobalTemp.process_global_temperature_anomalies ⟨some "2026-01-02", none⟩
          "2026-01-02" 0 oracle200).fetchCount = 0
      ∧ (GlobalTemp.process_global_temperature_anomalies ⟨some "2026-01-02", none⟩
          "2026-01-02" 0 oracle200).storeWrites = [])
  ∧ ((Regional.process_regional_climate_data ⟨some "2026-01", none⟩
        "2026-01" 2026 0 oracleReg200).result = .ok ⟨Regional.schema, []⟩
      ∧ (Regional.process_regional_climate_data ⟨some "2026-01", none⟩
          "2026-01" 2026 0 oracleReg200).fetchCount = 0
      ∧ (Regional.process_regional_climate_data ⟨some "2026-01", none⟩
          "2026-01" 2026 0 oracleReg200).storeWrites = [])
  ∧ ((Precip.process_precipitation_data ⟨some "2026-01", none⟩ "2026-01" 0
        ⟨200, {}⟩ ⟨200, {}⟩).result = .ok ⟨Precip.schema, []⟩
      ∧ (Precip.process_precipitation_data ⟨some "2026-01", none⟩ "2026-01" 0
          ⟨200, {}⟩ ⟨200, {}⟩).fetchCount = 0
      ∧ (Precip.process_precipitation_data ⟨some "2026-01", none⟩ "2026-01" 0
          ⟨200, {}⟩ ⟨200, {}⟩).storeWrites = [])
  ∧ (∀ st2 ∈ (GlobalTemp.process_global_temperature_anomalies ⟨none, none⟩
        "2026-01-02" 0 oracle200).storeWrites,
      (GlobalTemp.process_global_temperature_anomalies st2 "2026-01-02" 1 oracle404).result
        = .ok ⟨GlobalTemp.schema, []⟩)
  ∧ (∀ st2 ∈ (Regional.process_regional_climate_data ⟨none, none⟩
        "2026-01" 2026 0 oracleReg200).storeWrites,
      (Regional.process_regional_climate_data st2 "2026-01" 2026 1
          (fun _ _ _ => ⟨404, {}⟩)).result = .ok ⟨Regional.schema, []⟩)
  ∧ (∀ st2 ∈ (Precip.process_precipitation_data ⟨none, none⟩ "2026-01" 0
        ⟨200, {}⟩ ⟨200, {}⟩).storeWrites,
      (Precip.process_precipitation_data st2 "2026-01" 1 ⟨404, {}⟩ ⟨404, {}⟩).result
        = .ok ⟨Precip.schema, []⟩) :=
  ⟨claim_C3_idempotence_gate.1 _ _ 0 oracle200 rfl,
   claim_C3_idempotence_gate.2.1 _ _ 2026 0 oracleReg200 rfl,
   claim_C3_idempotence_gate.2.2.1 _ _ 0 ⟨200, {}⟩ ⟨200, {}⟩ rfl,
   fun st2 hst2 => claim_C3_idempotence_gate.2.2.2.1 ⟨none, none⟩ "2026-01-02" 0 oracle200
     ⟨GlobalTemp.schema, []⟩ (by decide) st2 hst2 1 oracle404,
   fun st2 hst2 => claim_C3_idempotence_gate.2.2.2.2.1 ⟨none, none⟩ "2026-01" 2026 0
     oracleReg200 ⟨Regional.schema, []⟩ (by decide) st2 hst2 2026 1 (fun _ _ _ => ⟨404, {}⟩),
   fun st2 hst2 => claim_C3_idempotence_gate.2.2.2.2.2 ⟨none, none⟩ "2026-01" 0
     ⟨200, {}⟩ ⟨200, {}⟩ ⟨Precip.schema, []⟩ (by decide) st2 hst2 1 ⟨404, {}⟩ ⟨404, {}⟩⟩

/-- C9 (amended): every processor invocation reads the State Store exactly
once; an invocation that passes the gate and completes successfully also
writes it exactly once; when the gate short-circuits, the invocation still
performs that one state read but issues no remote fetch and no state
write. -/
theorem claim_C9_state_store_calls :
    (∀ (st : RunState) (today : String) (now : Nat) (oracle : String → String → Response),
        (GlobalTemp.process_global_temperature_anomalies st today now oracle).storeReads = 1
        ∧ (st.last_update = some today →
            (GlobalTemp.process_global_temperature_anomalies st today now oracle).fetchCount = 0
            ∧ (GlobalTemp.process_global_temperature_anomalies st today now oracle).storeWrites
                = [])
        ∧ (∀ t : PaTable GlobalTemp.AnomalyRecord, ¬ st.last_update = some today →
            (GlobalTemp.process_global_temperature_anomalies st today now oracle).result = .ok t →
            (GlobalTemp.process_global_temperature_anomalies st today now
                oracle).storeWrites.length = 1))
  ∧ (∀ (st : RunState) (cm : String) (cy : Int) (now : Nat)
        (oracle : String → String → Nat → Response),
        (Regional.process_regional_climate_data st cm cy now oracle).storeReads = 1
        ∧ (st.last_update = some cm →
            (Regional.process_regional_climate_data st cm cy now oracle).fetchCount = 0
            ∧ (Regional.process_regional_climate_data st cm cy now oracle).storeWrites = [])
        ∧ (∀ t : PaTable Regional.RegionalRecord, ¬ st.last_update = some cm →
            (Regional.process_regional_climate_data st cm cy now oracle).result = .ok t →
            (Regional.process_regional_climate_data st cm cy now oracle).storeWrites.length = 1))
  ∧ (∀ (st : RunState) (cm : String) (now : Nat) (pr tr : Response),
        (Precip.process_precipitation_data st cm now pr tr).storeReads = 1
        ∧ (st.last_update = some cm →
            (Precip.process_precipitation_data st cm now pr tr).fetchCount = 0
            ∧ (Precip.process_precipitation_data st cm now pr tr).storeWrites = [])
        ∧ (∀ t : PaTable Precip.PrecipRecord, ¬ st.last_update = some cm →
            (Precip.process_precipitation_data st cm now pr tr).result = .ok t →
            (Precip.process_precipitation_data st cm now pr tr).storeWrites.length = 1)) := by
  refine ⟨?_, ?_, ?_⟩
  · intro st today now oracle
    refine ⟨GlobalTemp.gt_always_one_read st today now oracle, ?_, ?_⟩
    · intro h
      rw [GlobalTemp.gt_gate_run st today now oracle h]
      exact ⟨rfl, rfl⟩
    · intro t h hok
      rcases GlobalTemp.gt_nogate_run st today now oracle h with
        ⟨k, e, hrs, heq⟩ | ⟨k, records, hrs, heq⟩
      · rw [heq] at hok
        simp at hok
      · rw [heq]
        rfl
  · intro st cm cy now oracle
    refine ⟨Regional.reg_always_one_read st cm cy now oracle, ?_, ?_⟩
    · intro h
      rw [Regional.reg_gate_run st cm cy now oracle h]
      exact ⟨rfl, rfl⟩
    · intro t h hok
      rcases Regional.reg_nogate_run st cm cy now oracle h with
        ⟨k, e, hrs, heq⟩ | ⟨k, records, hrs, heq⟩
      · rw [heq] at hok
        simp at hok
      · rw [heq]
        rfl
  · intro st cm now pr tr
    refine ⟨Precip.pr_always_one_read st cm now pr tr, ?_, ?_⟩
    · intro h
      rw [Precip.pr_gate_run st cm now pr tr h]
      exact ⟨rfl, rfl⟩
    · intro t h hok
      rcases Precip.pr_nogate_run st cm now pr tr h with ⟨hres, hwr⟩ | ⟨annuals, hann, heq⟩
      · rw [hres] at hok
        simp at hok
      · rw [heq]
        rfl

/-- C9 witness: the amended statement applied to concrete gated and
non-gated invocations of each processor, hypotheses discharged there. -/
theorem claim_C9_witness :
    (GlobalTemp.process_global_temperature_anomalies ⟨some "2026-02-03", none⟩
        "2026-02-03" 0 oracle404).storeReads = 1
  ∧ ((GlobalTemp.process_global_temperature_anomalies ⟨some "2026-02-03", none⟩
        "2026-02-03" 0 oracle404).fetchCount = 0
      ∧ (GlobalTemp.process_global_temperature_anomalies ⟨some "2026-02-03", none⟩
          "2026-02-03" 0 oracle404).storeWrites = [])
  ∧ (GlobalTemp.process_global_temperature_anomalies ⟨none, none⟩
        "2026-02-03" 0 oracle404).storeWrites.length = 1
  ∧ (Regional.process_regional_climate_data ⟨some "2026-02", none⟩
        "2026-02" 2026 0 oracleReg200).storeReads = 1
  ∧ (Regional.process_regional_climate_data ⟨none, none⟩
        "2026-02" 2026 0 oracleReg200).storeWrites.length = 1
  ∧ (Precip.process_precipitation_data ⟨some "2026-02", none⟩ "2026-02" 0
        ⟨404, {}⟩ ⟨404, {}⟩).storeReads = 1
  ∧ (Precip.process_precipitation_data ⟨none, none⟩ "2026-02" 0
        ⟨404, {}⟩ ⟨404, {}⟩).storeWrites.length = 1 :=
  ⟨(claim_C9_state_store_calls.1 ⟨some "2026-02-03", none⟩ "2026-02-03" 0 oracle404).1,
   (claim_C9_state_store_calls.1 ⟨some "2026-02-03", none⟩ "2026-02-03" 0 oracle404).2.1 rfl,
   (claim_C9_state_store_calls.1 ⟨none, none⟩ "2026-02-03" 0 oracle404).2.2
     ⟨GlobalTemp.schema, []⟩ (by decide) (by decide),
   (claim_C9_state_store_calls.2.1 ⟨some "2026-02", none⟩ "2026-02" 2026 0 oracleReg200).1,
   (claim_C9_state_store_calls.2.1 ⟨none, none⟩ "2026-02" 2026 0 oracleReg200).2.2
     ⟨Regional.schema, []⟩ (by decide) (by decide),
   (claim_C9_state_store_calls.2.2 ⟨some "2026-02", none⟩ "2026-02" 0 ⟨404, {}⟩ ⟨404, {}⟩).1,
   (claim_C9_state_store_calls.2.2 ⟨none, none⟩ "2026-02" 0 ⟨404, {}⟩ ⟨404, {}⟩).2.2
     ⟨Precip.schema, []⟩ (by decide) (by decide)⟩

/-- C9 counterexample: a gated (short-circuited) invocation still performs
one State Store read — the claim's zero external calls with the Run State
left unread is false; the same run shows the gate did short-circuit (empty
table, no fetch, no write). -/
theorem claim_C9_counterexample :
    (GlobalTemp.process_global_temperature_anomalies ⟨some "2026-05-01", none⟩
        "2026-05-01" 0 oracle200).result = .ok ⟨GlobalTemp.schema, []⟩
  ∧ (GlobalTemp.process_global_temperature_anomalies ⟨some "2026-05-01", none⟩
        "2026-05-01" 0 oracle200).fetchCount = 0
  ∧ (GlobalTemp.process_global_temperature_anomalies ⟨some "2026-05-01", none⟩
        "2026-05-01" 0 oracle200).storeWrites = []
  ∧ (GlobalTemp.process_global_temperature_anomalies ⟨some "2026-05-01", none⟩
        "2026-05-01" 0 oracle200).storeReads = 1 := by
  decide

/-- Annual precipitation series for the decade example: years 1990 to 1999
with values 1.0 to 10.0. -/
def c4Series : Series :=
  [("1990", { value := some 1 }), ("1991", { value := some 2 }),
   ("1992", { value := some 3 }), ("1993", { value := some 4 }),
   ("1994", { value := some 5 }), ("1995", { value := some 6 }),
   ("1996", { value := some 7 }), ("1997", { value := some 8 }),
   ("1998", { value := some 9 }), ("1999", { value := some 10 })]

/-- The annual records built from c4Series (no temperature series). -/
def c4Records : List Precip.PrecipRecord :=
  [⟨1990, "United States", some 1, none, none, none, "Annual Average", some "1901-2000", 0⟩,
   ⟨1991, "United States", some 2, none, none, none, "Annual Average", some "1901-2000", 0⟩,
   ⟨1992, "United States", some 3, none, none, none, "Annual Average", some "1901-2000", 0⟩,
   ⟨1993, "United States", some 4, none, none, none, "Annual Average", some "1901-2000", 0⟩,
   ⟨1994, "United States", some 5, none, none, none, "Annual Average", some "1901-2000", 0⟩,
   ⟨1995, "United States", some 6, none, none, none, "Annual Average", some "1901-2000", 0⟩,
   ⟨1996, "United States", some 7, none, none, none, "Annual Average", some "1901-2000", 0⟩,
   ⟨1997, "United States", some 8, none, none, none, "Annual Average", some "1901-2000", 0⟩,
   ⟨1998, "United States", some 9, none, none, none, "Annual Average", some "1901-2000", 0⟩,
   ⟨1999, "United States", some 10, none, none, none, "Annual Average", some "1901-2000", 0⟩]

/-- C4: every decade bucket holding at least one non-null precipitation
value produces exactly one Decade Average record, whose precipitation is the
mean of the bucket's non-null values rounded to 2 decimal places; a bucket
with no precipitation value produces no decade record; in particular the
annual values 1.0 to 10.0 for 1990 to 1999 yield one decade record for 1990
with precipitation 5.50. -/
theorem claim_C4_decade_average :
    (∀ (rs : List Precip.PrecipRecord) (now : Nat) (d : Int),
        (Precip.bucketPrecips rs d ≠ [] →
          ∃ r, (Precip.decadeRecords rs now).filter (fun r2 => r2.year == d) = [r]
            ∧ r.data_type = "Decade Average"
            ∧ r.precipitation_inches = some (pyRound 2
                (listSum (Precip.bucketPrecips rs d)
                  / mkQR (Precip.bucketPrecips rs d).length 1)))
        ∧ (Precip.bucketPrecips rs d = [] →
            (Precip.decadeRecords rs now).filter (fun r2 => r2.year == d) = []))
  ∧ (Precip.annualRecords "1901-2000" 0 [] c4Series).map
        (fun rs => (Precip.decadeRecords rs 0).map
          (fun r => (r.year, r.precipitation_inches, r.data_type)))
      = .ok [(1990, some (mkQR 11 2), "Decade Average")] := by
  constructor
  · intro rs now d
    constructor
    · intro hne
      have hmem : d ∈ Precip.decadeOrder rs := Precip.bucket_mem_decadeOrder hne
      have hnd : (Precip.decadeOrder rs).Nodup := Precip.dedupFirstAux_nodup _ []
      have hfil := @Precip.filter_filterMap_decade rs now d
        (Precip.decadeOrder rs) hnd
      rw [if_pos hmem] at hfil
      obtain ⟨r, hr⟩ : ∃ r, Precip.decadeRecord rs now d = some r :=
        Precip.decadeRecord_isSome hne
      have hre := @Precip.decadeRecord_eq rs now d hne
      have hrr := Option.some.inj (hr.symm.trans hre)
      have hy : r.year = d := Precip.decadeRecord_year hr
      refine ⟨r, ?_, by rw [hrr], by rw [hrr]⟩
      unfold Precip.decadeRecords
      rw [hfil, hr]
      simp [hy]
    · intro hz
      have hnd : (Precip.decadeOrder rs).Nodup := Precip.dedupFirstAux_nodup _ []
      have hfil := @Precip.filter_filterMap_decade rs now d
        (Precip.decadeOrder rs) hnd
      have hnone : Precip.decadeRecord rs now d = none := by
        unfold Precip.decadeRecord
        rw [hz]
        rfl
      unfold Precip.decadeRecords
      rw [hfil, hnone]
      by_cases hd : d ∈ Precip.decadeOrder rs
      · rw [if_pos hd]
        rfl
      · rw [if_neg hd]
  · decide

/-- C4 witness: the quantified statement applied to the concrete 1990s
records, its hypotheses discharged there. -/
theorem claim_C4_witness :
    ∃ r, (Precip.decadeRecords c4Records 0).filter (fun r2 => r2.year == 1990) = [r]
      ∧ r.data_type = "Decade Average"
      ∧ r.precipitation_inches = some (pyRound 2
          (listSum (Precip.bucketPrecips c4Records 1990)
            / mkQR (Precip.bucketPrecips c4Records 1990).length 1)) :=
  (claim_C4_decade_average.1 c4Records 0 1990).1 (by decide)

/-- Precipitation series for the C5 failing input: years 1990 and 1991. -/
def c5Precip : Series :=
  [("1990", { value := some 1 }), ("1991", { value := some 1 })]

/-- Temperature series for the C5 failing input: values -1.0 and 1.0, whose
mean is exactly 0. -/
def c5Temp : Series :=
  [("1990", { value := some (mkQR (-1) 1) }), ("1991", { value := some 1 })]

/-- The annual records the processor builds from c5Precip and c5Temp. -/
def c5Records : List Precip.PrecipRecord :=
  [⟨1990, "United States", some 1, none, some (mkQR (-1) 1), none,
    "Annual Average", some "1901-2000", 0⟩,
   ⟨1991, "United States", some 1, none, some 1, none,
    "Annual Average", some "1901-2000", 0⟩]

/-- C5, code bug: the 1990 decade bucket holds the two non-null temperature
values -1.0 and 1.0, so the claim (and the spec) require the decade record
to carry their mean 0.00, but the source's truthiness test
(round(avg_temp, 2) if avg_temp else None) treats the zero mean as missing
and emits a null temperature_fahrenheit. -/
theorem claim_C5_zero_mean_temperature_bug :
    Precip.annualRecords "1901-2000" 0 c5Temp c5Precip = .ok c5Records
  ∧ Precip.bucketTemps c5Records 1990 = [mkQR (-1) 1, 1]
  ∧ listSum (Precip.bucketTemps c5Records 1990)
      / mkQR (Precip.bucketTemps c5Records 1990).length 1 = 0
  ∧ (Precip.decadeRecords c5Records 0).map (fun r => r.temperature_fahrenheit) = [none] := by
  decide

/-- C6: for a precipitation series whose year keys all parse as integers,
the annual loop returns exactly one record per precipitation entry, in
order; each record carries the entry's precipitation value and anomaly and
the Annual Average tag, and when the year key is absent from the temperature
series the temperature fields are null (left join: the row is kept). -/
theorem claim_C6_left_join :
    ∀ (yearly_precip yearly_temp : Series) (base : String) (now : Nat),
      (∀ k ∈ yearly_precip.map Prod.fst, (pyInt k).isSome) →
      ∃ l, Precip.annualRecords base now yearly_temp yearly_precip = .ok l
        ∧ l.length = yearly_precip.length
        ∧ ∀ i kv, yearly_precip.get? i = some kv →
            ∃ r, l.get? i = some r
              ∧ r.data_type = "Annual Average"
              ∧ pyInt kv.1 = some r.year
              ∧ r.precipitation_inches = kv.2.value
              ∧ r.precipitation_anomaly_inches = kv.2.anomaly
              ∧ (¬ kv.1 ∈ yearly_temp.map Prod.fst →
                  r.temperature_fahrenheit = none
                    ∧ r.temperature_anomaly_fahrenheit = none) := by
  intro yearly_precip yearly_temp base now hk
  rcases Precip.annualRecords_spec base now yearly_temp yearly_precip hk with
    ⟨l, hl, hlen, hspec⟩
  refine ⟨l, hl, hlen, ?_⟩
  intro i kv hkv
  rcases hspec i kv hkv with ⟨r, hr, hyear, _, hpv, hpa, htv, hta, hdt, _, _⟩
  refine ⟨r, hr, hdt, hyear, hpv, hpa, ?_⟩
  intro habs
  have hlk : List.lookup kv.1 yearly_temp = none := Precip.lookup_eq_none habs
  rw [hlk] at htv hta
  exact ⟨htv, hta⟩

/-- Precipitation series for the C6 witness: one year with value and
anomaly, one year absent from the temperature series. -/
def c6Precip : Series :=
  [("2000", { value := some 2, anomaly := some 1 }), ("2001", { value := some 3 })]

/-- Temperature series for the C6 witness: covers 2000 only. -/
def c6Temp : Series := [("2000", { value := some 50 })]

/-- C6 witness: the statement applied to the concrete precipitation and
temperature series, its hypothesis discharged there. -/
theorem claim_C6_witness :
    ∃ l, Precip.annualRecords "1901-2000" 0 c6Temp c6Precip = .ok l
      ∧ l.length = c6Precip.length
      ∧ ∀ i kv, c6Precip.get? i = some kv →
          ∃ r, l.get? i = some r
            ∧ r.data_type = "Annual Average"
            ∧ pyInt kv.1 = some r.year
            ∧ r.precipitation_inches = kv.2.value
            ∧ r.precipitation_anomaly_inches = kv.2.anomaly
            ∧ (¬ kv.1 ∈ c6Temp.map Prod.fst →
                r.temperature_fahrenheit = none
                  ∧ r.temperature_anomaly_fahrenheit = none) :=
  claim_C6_left_join c6Precip c6Temp "1901-2000" 0 (by decide)

/-- C7: in every table either enumerator-driven processor returns, no record
whose region is Europe, Asia or Africa has surface type Ocean: the skip rule
drops those combinations before any fetch. -/
theorem claim_C7_no_continental_ocean :
    (∀ (st : RunState) (today : String) (now : Nat) (oracle : String → String → Response)
        (t : PaTable GlobalTemp.AnomalyRecord),
        (GlobalTemp.process_global_temperature_anomalies st today now oracle).result = .ok t →
        ∀ r ∈ t.rows,
          (r.region = "Europe" ∨ r.region = "Asia" ∨ r.region = "Africa") →
          ¬ r.surface_type = "Ocean")
  ∧ (∀ (st : RunState) (cm : String) (cy : Int) (now : Nat)
        (oracle : String → String → Nat → Response) (t : PaTable Regional.RegionalRecord),
        (Regional.process_regional_climate_data st cm cy now oracle).result = .ok t →
        ∀ r ∈ t.rows,
          (r.region = "Europe" ∨ r.region = "Asia" ∨ r.region = "Africa") →
          ¬ r.surface_type = "Ocean") := by
  constructor
  · intro st today now oracle t hok r hr hreg
    by_cases h : st.last_update = some today
    · rw [GlobalTemp.gt_gate_run st today now oracle h] at hok
      simp only [Except.ok.injEq] at hok
      subst hok
      simp at hr
    · rcases GlobalTemp.gt_nogate_run st today now oracle h with
        ⟨k, e, hrs, heq⟩ | ⟨k, records, hrs, heq⟩
      · rw [heq] at hok
        simp at hok
      · rw [heq] at hok
        simp only [Except.ok.injEq] at hok
        subst hok
        simp only at hr
        rcases runSteps_mem _ GlobalTemp.combos records (by rw [hrs]) r hr with
          ⟨c, hc, rs, hcs, hrrs⟩
        by_cases hskip : skipCombo c.1.1 c.2.1
        · rw [GlobalTemp.gt_processCombo_skip hskip] at hcs
          simp only [Except.ok.injEq] at hcs
          subst hcs
          simp at hrrs
        · have hskipf : skipCombo c.1.1 c.2.1 = false := by
            simpa using hskip
          have hfields := GlobalTemp.gt_processCombo_fields hcs r hrrs
          have hb := List.all_eq_true.mp GlobalTemp.gt_combos_check c hc
          have hregc : c.1.2 = "Europe" ∨ c.1.2 = "Asia" ∨ c.1.2 = "Africa" := by
            rcases hreg with h1 | h1 | h1 <;> rw [hfields.1] at h1 <;> tauto
          intro hsurf
          rw [hfields.2] at hsurf
          rw [hskipf] at hb
          rcases hregc with h1 | h1 | h1 <;> simp [h1, hsurf] at hb
  · intro st cm cy now oracle t hok r hr hreg
    by_cases h : st.last_update = some cm
    · rw [Regional.reg_gate_run st cm cy now oracle h] at hok
      simp only [Except.ok.injEq] at hok
      subst hok
      simp at hr
    · rcases Regional.reg_nogate_run st cm cy now oracle h with
        ⟨k, e, hrs, heq⟩ | ⟨k, records, hrs, heq⟩
      · rw [heq] at hok
        simp at hok
      · rw [heq] at hok
        simp only [Except.ok.injEq] at hok
        subst hok
        simp only at hr
        rcases runSteps_mem _ Regional.combos records (by rw [hrs]) r hr with
          ⟨c, hc, rs, hcs, hrrs⟩
        by_cases hskip : skipCombo c.1.1 c.2.1
        · rw [Regional.reg_processCombo_skip hskip] at hcs
          simp only [Except.ok.injEq] at hcs
          subst hcs
          simp at hrrs
        · have hskipf : skipCombo c.1.1 c.2.1 = false := by
            simpa using hskip
          have hfields := Regional.reg_processCombo_fields hcs r hrrs
          have hb := List.all_eq_true.mp Regional.reg_combos_check c hc
          have hregc : c.1.2 = "Europe" ∨ c.1.2 = "Asia" ∨ c.1.2 = "Africa" := by
            rcases hreg with h1 | h1 | h1 <;> rw [hfields.1] at h1 <;> tauto
          intro hsurf
          rw [hfields.2] at hsurf
          rw [hskipf] at hb
          rcases hregc with h1 | h1 | h1 <;> simp [h1, hsurf] at hb

/-- An oracle answering only the Europe land-and-ocean request with data. -/
def c7Oracle : String → String → Response :=
  fun rc sc =>
    if rc = "europe" ∧ sc = "land_ocean"
    then ⟨200, { data := some [("2000", { anomaly := some 1 })] }⟩
    else ⟨404, {}⟩

/-- The single record the anomaly processor emits under c7Oracle. -/
def c7Record : GlobalTemp.AnomalyRecord :=
  ⟨2000, "Europe", "Land and Ocean", 1, "1901-2000", "", "NOAA Climate at a Glance", 0⟩

/-- A regional oracle answering only Europe, land and ocean, 10 years. -/
def c7OracleReg : String → String → Nat → Response :=
  fun rc sc p =>
    if rc = "europe" ∧ sc = "land_ocean" ∧ p = 10
    then ⟨200, { data := some [("2000", { anomaly := some 1 })] }⟩
    else ⟨404, {}⟩

/-- The single record the regional processor emits under c7OracleReg. -/
def c7RecordReg : Regional.RegionalRecord :=
  ⟨"Europe", "Land and Ocean", 2010, 2020, 1, 1, 1, some 2000, some 1, "stable", 0,
   "1901-2000", 1, 0⟩

/-- C7 witness: both statements applied to concrete runs that emit a Europe
record, hypotheses discharged there. -/
theorem claim_C7_witness :
    ¬ c7Record.surface_type = "Ocean" ∧ ¬ c7RecordReg.surface_type = "Ocean" :=
  ⟨claim_C7_no_continental_ocean.1 ⟨none, none⟩ "2026-03-04" 0 c7Oracle
      ⟨GlobalTemp.schema, [c7Record]⟩ (by decide) c7Record (by decide) (Or.inl rfl),
   claim_C7_no_continental_ocean.2 ⟨none, none⟩ "2026-03" 2020 0 c7OracleReg
      ⟨Regional.schema, [c7RecordReg]⟩ (by decide) c7RecordReg (by decide) (Or.inl rfl)⟩

/-- C8: a 404 response makes the fetch step return no data and the
combination contribute nothing without raising; when every enumerated
combination's step succeeds (404 or parsed success), the processor returns
the table whose rows are exactly the concatenation of the per-combination
records, so a 404 for one combination leaves every other combination's
records in place; a response with any other non-success status makes the
invocation a hard failure (error result, no state write). -/
theorem claim_C8_not_found_vs_failure :
    (∀ resp : Response, resp.status = 404 →
        GlobalTemp.fetch_temperature_data resp = .ok none)
  ∧ (∀ (oracle : String → String → Response) (now : Nat)
        (c : (String × String) × (String × String)),
        (oracle c.1.1 c.2.1).status = 404 →
        (GlobalTemp.processCombo oracle now c).2 = .ok [])
  ∧ (∀ (st : RunState) (today : String) (now : Nat) (oracle : String → String → Response),
        ¬ st.last_update = some today →
        (∀ c ∈ GlobalTemp.combos, isOkE (GlobalTemp.processCombo oracle now c).2 = true) →
        (GlobalTemp.process_global_temperature_anomalies st today now oracle).result
          = .ok ⟨GlobalTemp.schema,
              GlobalTemp.combos.flatMap
                (fun c => okRows (GlobalTemp.processCombo oracle now c).2)⟩)
  ∧ (∀ (st : RunState) (today : String) (now : Nat) (oracle : String → String → Response),
        ¬ st.last_update = some today →
        (∃ c ∈ GlobalTemp.combos, skipCombo c.1.1 c.2.1 = false
          ∧ ¬ (oracle c.1.1 c.2.1).status = 404 ∧ 400 ≤ (oracle c.1.1 c.2.1).status) →
        (GlobalTemp.process_global_temperature_anomalies st today now oracle).result = .error ()
          ∧ (GlobalTemp.process_global_temperature_anomalies st today now
              oracle).storeWrites = []) := by
  refine ⟨?_, ?_, ?_, ?_⟩
  · intro resp h
    unfold GlobalTemp.fetch_temperature_data fetchOutcome
    rw [if_pos h]
  · intro oracle now c h
    exact GlobalTemp.gt_processCombo_404 h
  · intro st today now oracle h hall
    have hrs := runSteps_ok (GlobalTemp.processCombo oracle now) GlobalTemp.combos hall
    rcases GlobalTemp.gt_nogate_run st today now oracle h with
      ⟨k, e, hrs2, heq⟩ | ⟨k, records, hrs2, heq⟩
    · rw [hrs] at hrs2
      simp at hrs2
    · rw [hrs] at hrs2
      have hrec : records = GlobalTemp.combos.flatMap
          (fun c => okRows (GlobalTemp.processCombo oracle now c).2) := by
        have := congrArg Prod.snd hrs2
        simpa using this.symm
      rw [heq, hrec]
  · intro st today now oracle h hex
    rcases hex with ⟨c, hc, hskip, h404, hbad⟩
    have hcerr : (GlobalTemp.processCombo oracle now c).2 = .error () :=
      GlobalTemp.gt_processCombo_hard_failure hskip h404 hbad
    have herr := runSteps_error (GlobalTemp.processCombo oracle now) GlobalTemp.combos c hc hcerr
    rcases GlobalTemp.gt_nogate_run st today now oracle h with
      ⟨k, e, hrs2, heq⟩ | ⟨k, records, hrs2, heq⟩
    · rw [heq]
      cases e
      exact ⟨rfl, rfl⟩
    · rw [hrs2] at herr
      simp at herr

/-- An oracle that 404s the globe requests and answers the rest with one
anomaly year. -/
def c8Oracle : String → String → Response :=
  fun rc _ =>
    if rc = "globe" then ⟨404, {}⟩
    else ⟨200, { data := some [("2000", { anomaly := some (mkQR 1 2) })] }⟩

/-- C8 witness: the four statements applied at concrete responses, oracles
and combinations, every hypothesis discharged there. -/
theorem claim_C8_witness :
    GlobalTemp.fetch_temperature_data ⟨404, {}⟩ = .ok none
  ∧ (GlobalTemp.processCombo c8Oracle 0
      (("globe", "Global"), ("land_ocean", "Land and Ocean"))).2 = .ok []
  ∧ (GlobalTemp.process_global_temperature_anomalies ⟨none, none⟩ "2026-04-05" 0
        c8Oracle).result
      = .ok ⟨GlobalTemp.schema,
          GlobalTemp.combos.flatMap
            (fun c => okRows (GlobalTemp.processCombo c8Oracle 0 c).2)⟩
  ∧ ((GlobalTemp.process_global_temperature_anomalies ⟨none, none⟩ "2026-04-05" 0
        oracle500).result = .error ()
      ∧ (GlobalTemp.process_global_temperature_anomalies ⟨none, none⟩ "2026-04-05" 0
          oracle500).storeWrites = []) :=
  ⟨claim_C8_not_found_vs_failure.1 ⟨404, {}⟩ rfl,
   claim_C8_not_found_vs_failure.2.1 c8Oracle 0
     (("globe", "Global"), ("land_ocean", "Land and Ocean")) rfl,
   claim_C8_not_found_vs_failure.2.2.1 ⟨none, none⟩ "2026-04-05" 0 c8Oracle
     (by decide) (by decide),
   claim_C8_not_found_vs_failure.2.2.2 ⟨none, none⟩ "2026-04-05" 0 oracle500 (by decide)
     ⟨(("globe", "Global"), ("land_ocean", "Land and Ocean")), by decide, rfl, by decide,
       by decide⟩⟩

/-- An oracle answering every request with a payload whose only data key is
not an integer string (and carries no anomaly). -/
def oracleBadKey : String → String → Response :=
  fun _ _ => ⟨200, { data := some [("not-a-year", {})] }⟩

/-- C10 (amended): the precipitation processor converts every year key of
its precipitation series with int(), so any non-integer key raises and,
when all keys parse, the annual loop is total; the anomaly processor
converts a year key only when that entry carries a non-null anomaly — an
entry with a non-integer key and no anomaly is skipped, not raised on —
and is total when every anomaly-bearing key parses; the trend calculator
converts only the last key in sorted order, so it is total when all keys
parse, and a non-integer key that is not the sorted-last key does not
raise. -/
theorem claim_C10_year_key_conversion :
    (∀ (b : String) (now : Nat) (yt yd : Series),
        (∃ k ∈ yd.map Prod.fst, pyInt k = none) →
        Precip.annualRecords b now yt yd = .error ())
  ∧ (∀ (b : String) (now : Nat) (yt yd : Series),
        (∀ k ∈ yd.map Prod.fst, (pyInt k).isSome) →
        ∃ l, Precip.annualRecords b now yt yd = .ok l)
  ∧ (∀ (rn sn b t : String) (now : Nat) (yd : Series),
        (∀ kv ∈ yd, kv.2.anomaly.isSome → (pyInt kv.1).isSome) →
        ∃ recs, GlobalTemp.yearRecords rn sn b t now yd = .ok recs)
  ∧ (∀ (rn sn b t : String) (now : Nat) (yd : Series),
        (∃ kv ∈ yd, kv.2.anomaly.isSome ∧ pyInt kv.1 = none) →
        GlobalTemp.yearRecords rn sn b t now yd = .error ())
  ∧ (∀ yd : Series, (∀ k ∈ yd.map Prod.fst, (pyInt k).isSome) →
        ∃ o, Regional.calculate_trend_statistics yd = .ok o)
  ∧ (Regional.calculate_trend_statistics
        [("0bad", { anomaly := some 1 }), ("2000", { anomaly := some 2 })]).map
      (Option.map (fun st => st.latest_year)) = .ok (some (some 2000)) := by
  refine ⟨?_, ?_, ?_, ?_, ?_, by decide⟩
  · intro b now yt yd hex
    exact Precip.annualRecords_error b now yt yd hex
  · intro b now yt yd hall
    rcases Precip.annualRecords_spec b now yt yd hall with ⟨l, hl, _, _⟩
    exact ⟨l, hl⟩
  · intro rn sn b t now yd hall
    exact GlobalTemp.yearRecords_ok yd hall
  · intro rn sn b t now yd hex
    exact GlobalTemp.yearRecords_error yd hex
  · intro yd hall
    exact Regional.calc_ok yd hall

/-- C10 witness: each statement applied to a concrete series, hypotheses
discharged there. -/
theorem claim_C10_witness :
    Precip.annualRecords "1901-2000" 0 [] [("bad-year", { value := some 1 })] = .error ()
  ∧ (∃ l, Precip.annualRecords "1901-2000" 0 [] [("2000", { value := some 1 })] = .ok l)
  ∧ (∃ recs, GlobalTemp.yearRecords "Global" "Land" "1901-2000" "" 0
      [("2000", { anomaly := some 1 })] = .ok recs)
  ∧ GlobalTemp.yearRecords "Global" "Land" "1901-2000" "" 0
      [("bad-year", { anomaly := some 1 })] = .error ()
  ∧ (∃ o, Regional.calculate_trend_statistics [("2000", { anomaly := some 1 })] = .ok o) :=
  ⟨claim_C10_year_key_conversion.1 "1901-2000" 0 [] [("bad-year", { value := some 1 })]
     ⟨"bad-year", by decide, by decide⟩,
   claim_C10_year_key_conversion.2.1 "1901-2000" 0 [] [("2000", { value := some 1 })]
     (by decide),
   claim_C10_year_key_conversion.2.2.1 "Global" "Land" "1901-2000" "" 0
     [("2000", { anomaly := some 1 })] (by decide),
   claim_C10_year_key_conversion.2.2.2.1 "Global" "Land" "1901-2000" "" 0
     [("bad-year", { anomaly := some 1 })]
     ⟨("bad-year", { anomaly := some 1 }), by decide, by decide, by decide⟩,
   claim_C10_year_key_conversion.2.2.2.2.1 [("2000", { anomaly := some 1 })] (by decide)⟩

/-- C10 counterexample: a data mapping whose only year key is not an integer
string but whose entry has no anomaly makes the anomaly processor skip the
entry and return an ok empty table — it does not raise, contradicting the
claim that every payload containing a non-integer year key raises. -/
theorem claim_C10_counterexample :
    pyInt "not-a-year" = none
  ∧ GlobalTemp.yearRecords "Global" "Land and Ocean" "1901-2000" "" 0
      [("not-a-year", {})] = .ok []
  ∧ (GlobalTemp.process_global_temperature_anomalies ⟨none, none⟩ "2026-05-02" 0
      oracleBadKey).result = .ok ⟨GlobalTemp.schema, []⟩ := by
  decide

end NoaaClimate
